import Mathlib

/-!
Shallow embedding of the physics core of PGS-Physics-Visualizer
(`src/services/physics.ts`, `src/types.ts`).

Numbers are modelled by `ℚ` (exact arithmetic; JavaScript floating-point
rounding is outside the model).  `Math.sqrt` has no exact rational
counterpart, so every definition that needs it takes an explicit square-root
function `sq : ℚ → ℚ`; theorems quantify over `sq`, and concrete witnesses
instantiate it with `Rat.sqrt`, which is exact on the perfect-square inputs
the witnesses use.

TypeScript object references are modelled by indices: a `Contact` stores the
index of `bodyA`/`bodyB` in the state's body array (used wherever the source
mutates a body through the contact) together with the body ids read through
those references (used by the warm-start lookup, which only ever reads
`.id` and `.impulseAcc` from the previous tick's contacts).
-/

structure Vec2 where
  x : ℚ
  y : ℚ
deriving DecidableEq, Repr

def vAdd (a b : Vec2) : Vec2 := ⟨a.x + b.x, a.y + b.y⟩

def vSub (a b : Vec2) : Vec2 := ⟨a.x - b.x, a.y - b.y⟩

def vScale (v : Vec2) (s : ℚ) : Vec2 := ⟨v.x * s, v.y * s⟩

def vDot (a b : Vec2) : ℚ := a.x * b.x + a.y * b.y

/-- `vLen` calls `Math.sqrt`, modelled by the explicit parameter `sq`. -/
def vLen (sq : ℚ → ℚ) (v : Vec2) : ℚ := sq (v.x * v.x + v.y * v.y)

def vNorm (sq : ℚ → ℚ) (v : Vec2) : Vec2 :=
  let len := vLen sq v
  if 0 < len then vScale v (1 / len) else ⟨0, 0⟩

def vDist (sq : ℚ → ℚ) (a b : Vec2) : ℚ := vLen sq (vSub a b)

structure Body where
  id : Int
  pos : Vec2
  vel : Vec2
  radius : ℚ
  mass : ℚ
  invMass : ℚ
  color : String
  restitution : ℚ
  trail : List Vec2
  isStatic : Bool
deriving DecidableEq, Repr

structure Contact where
  cid : String
  aIdx : Nat
  bIdx : Option Nat
  aId : Int
  bId : Option Int
  normal : Vec2
  penetration : ℚ
  impulseAcc : ℚ
  effectiveMass : ℚ
  bias : ℚ
deriving DecidableEq, Repr

structure SimState where
  bodies : List Body
  contacts : List Contact
  totalEnergy : ℚ
  solverErrors : List ℚ
deriving DecidableEq, Repr

structure SimParams where
  gravity : ℚ
  iterations : Nat
  restitution : ℚ
  warmStarting : Bool
deriving DecidableEq, Repr

/-- Modelled from the spec: `src/constants.ts` is absent from the repository
snapshot, so the constants it exports (`CANVAS_WIDTH`, `CANVAS_HEIGHT`,
`PIXELS_PER_METER`, `TIMESTEP`, `BAUMGARTE`, `SLOP`, `TRAIL_LENGTH`) are kept
as abstract fields; the spec fixes only their roles (fixed timestep, Baumgarte
factor, slop tolerance, trail cap, arena dimensions in pixels and the
pixels-per-meter scale). -/
structure Consts where
  canvasWidth : ℚ
  canvasHeight : ℚ
  pixelsPerMeter : ℚ
  timestep : ℚ
  baumgarte : ℚ
  slop : ℚ
  trailLength : Nat
deriving DecidableEq, Repr

def defaultBody : Body :=
  { id := 0, pos := ⟨0, 0⟩, vel := ⟨0, 0⟩, radius := 0, mass := 0, invMass := 0
  , color := "", restitution := 0, trail := [], isStatic := false }

instance : Inhabited Body := ⟨defaultBody⟩

/-- Dereference a body through its index (model of a TS object reference). -/
def bodyAt (bs : List Body) (i : Nat) : Body := bs.getD i defaultBody

/-- In-place mutation of one body's `vel` field through a reference. -/
def updateVel (bs : List Body) (i : Nat) (f : Body → Vec2) : List Body :=
  match bs[i]? with
  | some b => bs.set i { b with vel := f b }
  | none => bs

/-- `c.bodyA.vel = vSub(c.bodyA.vel, vScale(impulse, c.bodyA.invMass))`. -/
def applyImpulseA (bs : List Body) (i : Nat) (impulse : Vec2) : List Body :=
  updateVel bs i fun b => vSub b.vel (vScale impulse b.invMass)

/-- `c.bodyB.vel = vAdd(c.bodyB.vel, vScale(impulse, c.bodyB.invMass))`. -/
def applyImpulseB (bs : List Body) (j : Nat) (impulse : Vec2) : List Body :=
  updateVel bs j fun b => vAdd b.vel (vScale impulse b.invMass)

/-- Phase 1 of `stepPhysics`: integrate gravity into the velocities. -/
def integrateGravity (C : Consts) (params : SimParams) (bs : List Body) : List Body :=
  bs.map fun b =>
    if b.invMass = 0 || b.isStatic then b
    else { b with vel := ⟨b.vel.x, b.vel.y + params.gravity * C.timestep⟩ }

/-- `createWallContact` from `src/services/physics.ts`: `idx` is the index of
`body` in the state's body array (the reference the TS contact stores); the
`restitution` argument is accepted but, as in the source, never used. -/
def createWallContact (C : Consts) (body : Body) (idx : Nat) (normal : Vec2)
    (penetration : ℚ) (restitution : ℚ) : Contact :=
  { cid := "wall-" ++ toString body.id
  , aIdx := idx
  , bIdx := none
  , aId := body.id
  , bId := none
  , normal := normal
  , penetration := penetration
  , impulseAcc := 0
  , effectiveMass := 1 / body.invMass
  , bias := -C.baumgarte * (min 0 (penetration + C.slop) / C.timestep) }

/-- Wall-constraint detection: per body, in source order floor, ceiling,
left wall, right wall. -/
def wallContacts (C : Consts) (params : SimParams) (bs : List Body) : List Contact :=
  let widthM := C.canvasWidth / C.pixelsPerMeter
  let heightM := C.canvasHeight / C.pixelsPerMeter
  bs.enum.flatMap fun ib =>
    let i := ib.1
    let b := ib.2
    (if heightM < b.pos.y + b.radius then
      [createWallContact C b i ⟨0, -1⟩ (heightM - (b.pos.y + b.radius)) params.restitution]
     else []) ++
    (if b.pos.y - b.radius < 0 then
      [createWallContact C b i ⟨0, 1⟩ (b.pos.y - b.radius - 0) params.restitution]
     else []) ++
    (if b.pos.x - b.radius < 0 then
      [createWallContact C b i ⟨1, 0⟩ (b.pos.x - b.radius - 0) params.restitution]
     else []) ++
    (if widthM < b.pos.x + b.radius then
      [createWallContact C b i ⟨-1, 0⟩ (widthM - (b.pos.x + b.radius)) params.restitution]
     else [])

/-- The warm-start lookup predicate of the source:
`(c.bodyA.id === A.id && c.bodyB?.id === B.id) ||
 (c.bodyA.id === B.id && c.bodyB?.id === A.id)`. -/
def matchesPair (idA idB : Int) (c : Contact) : Bool :=
  (c.aId == idA && c.bId == some idB) || (c.aId == idB && c.bId == some idA)

/-- Narrowphase for one unordered pair `(i, j)` of body indices, `i < j`:
skip static-static pairs, test circle overlap, build the contact with
effective mass, Baumgarte bias and the warm-start seed. -/
def pairContact (sq : ℚ → ℚ) (C : Consts) (params : SimParams)
    (prev : List Contact) (bs : List Body) (i j : Nat) : Option Contact :=
  let A := bodyAt bs i
  let B := bodyAt bs j
  if A.isStatic && B.isStatic then none
  else
    let dist := vDist sq A.pos B.pos
    let totalRad := A.radius + B.radius
    if dist < totalRad then
      let normal := vNorm sq (vSub B.pos A.pos)
      let penetration := dist - totalRad
      let k := A.invMass + B.invMass
      let effectiveMass := if 0 < k then 1 / k else 0
      let bias := -C.baumgarte * (min 0 (penetration + C.slop) / C.timestep)
      let initialImpulse :=
        if params.warmStarting then
          match prev.find? (matchesPair A.id B.id) with
          | some existing => existing.impulseAcc
          | none => 0
        else 0
      some { cid := toString A.id ++ "-" ++ toString B.id
           , aIdx := i
           , bIdx := some j
           , aId := A.id
           , bId := some B.id
           , normal := normal
           , penetration := penetration
           , impulseAcc := initialImpulse
           , effectiveMass := effectiveMass
           , bias := bias }
    else none

/-- The index pairs visited by the source's nested loops:
`i` ascending, and for each `i`, `j` ascending over `i+1 .. n-1`. -/
def pairIndices (n : Nat) : List (Nat × Nat) :=
  (List.range n).flatMap fun i =>
    (List.range n).filterMap fun j => if i < j then some (i, j) else none

/-- Body-body constraint detection (naive O(N²) scan). -/
def bodyContacts (sq : ℚ → ℚ) (C : Consts) (params : SimParams)
    (prev : List Contact) (bs : List Body) : List Contact :=
  (pairIndices bs.length).filterMap fun ij => pairContact sq C params prev bs ij.1 ij.2

/-- Phase 2 of `stepPhysics`: wall contacts (all bodies, in order), then
body-body contacts (pairs in ascending order). -/
def detectContacts (sq : ℚ → ℚ) (C : Consts) (params : SimParams)
    (prev : List Contact) (bs : List Body) : List Contact :=
  wallContacts C params bs ++ bodyContacts sq C params prev bs

/-- Warm-start pre-application for one contact: apply the seeded impulse to
both bodies' velocities along the contact normal. -/
def warmStartContact (bs : List Body) (c : Contact) : List Body :=
  let impulse := vScale c.normal c.impulseAcc
  let bs1 := applyImpulseA bs c.aIdx impulse
  match c.bIdx with
  | some j => applyImpulseB bs1 j impulse
  | none => bs1

/-- Warm-start pre-application over the whole contact list. -/
def applyWarmStart (bs : List Body) (cs : List Contact) : List Body :=
  cs.foldl warmStartContact bs

/-- One PGS update of a single contact: relative normal velocity, restitution
bias below the `-1.0` approach threshold, impulse delta, projection
`max(0, old + lambda)`, immediate application to both bodies.  Returns the
updated bodies, the updated contact, and the raw `lambda`. -/
def solveContact (params : SimParams) (bs : List Body) (c : Contact) :
    List Body × Contact × ℚ :=
  let rv := match c.bIdx with
            | some j => vSub (bodyAt bs j).vel (bodyAt bs c.aIdx).vel
            | none => vSub ⟨0, 0⟩ (bodyAt bs c.aIdx).vel
  let contactVel := vDot rv c.normal
  let restitutionBias := if contactVel < -1 then -params.restitution * contactVel else 0
  let lambda := -c.effectiveMass * (contactVel + c.bias + restitutionBias)
  let oldImpulse := c.impulseAcc
  let newImpulse := max 0 (oldImpulse + lambda)
  let deltaImpulse := newImpulse - oldImpulse
  let impulseVec := vScale c.normal deltaImpulse
  let bs1 := applyImpulseA bs c.aIdx impulseVec
  let bs2 := match c.bIdx with
             | some j => applyImpulseB bs1 j impulseVec
             | none => bs1
  (bs2, { c with impulseAcc := newImpulse }, lambda)

/-- One full Gauss-Seidel sweep over the contact list, threading the running
`maxError = max(maxError, |lambda|)` accumulator. -/
def solverSweep (params : SimParams) :
    List Body → List Contact → ℚ → List Body × List Contact × ℚ
  | bs, [], err => (bs, [], err)
  | bs, c :: rest, err =>
      let s := solveContact params bs c
      let t := solverSweep params s.1 rest (max err |s.2.2|)
      (t.1, s.2.1 :: t.2.1, t.2.2)

/-- The solver loop: exactly `iterations` full sweeps, collecting each
sweep's max error in order. -/
def runSolver (params : SimParams) :
    Nat → List Body → List Contact → List Body × List Contact × List ℚ
  | 0, bs, cs => (bs, cs, [])
  | n + 1, bs, cs =>
      let s := solverSweep params bs cs 0
      let t := runSolver params n s.1 s.2.1
      (t.1, t.2.1, s.2.2 :: t.2.2)

/-- Phase 4 of `stepPhysics` for one body: skip static / zero-inverse-mass
bodies; record or decay the trail; advance the position by `vel · TIMESTEP`;
then the four sequential boundary clamps, each snapping the position and
multiplying the offending velocity component by `-0.5`. -/
def integrateBody (sq : ℚ → ℚ) (C : Consts) (b : Body) : Body :=
  if b.isStatic || b.invMass = 0 then b
  else
    let widthM := C.canvasWidth / C.pixelsPerMeter
    let heightM := C.canvasHeight / C.pixelsPerMeter
    let speed := vLen sq b.vel
    let trail :=
      if 1 / 10 < speed then
        let t := b.pos :: b.trail
        if C.trailLength < t.length then t.dropLast else t
      else if 0 < b.trail.length then b.trail.dropLast else b.trail
    let pos := vAdd b.pos (vScale b.vel C.timestep)
    let sx1 : ℚ × ℚ :=
      if pos.x - b.radius < 0 then (b.radius, b.vel.x * (-1 / 2)) else (pos.x, b.vel.x)
    let sx2 : ℚ × ℚ :=
      if widthM < sx1.1 + b.radius then (widthM - b.radius, sx1.2 * (-1 / 2)) else sx1
    let sy1 : ℚ × ℚ :=
      if pos.y - b.radius < 0 then (b.radius, b.vel.y * (-1 / 2)) else (pos.y, b.vel.y)
    let sy2 : ℚ × ℚ :=
      if heightM < sy1.1 + b.radius then (heightM - b.radius, sy1.2 * (-1 / 2)) else sy1
    { b with pos := ⟨sx2.1, sy2.1⟩, vel := ⟨sx2.2, sy2.2⟩, trail := trail }

/-- `stepPhysics` from `src/services/physics.ts`: gravity, collision
detection, optional warm-start pre-application, `iterations` PGS sweeps,
integration with defensive clamping; returns `{ ...state, contacts,
solverErrors }`. -/
def stepPhysics (sq : ℚ → ℚ) (C : Consts) (state : SimState) (params : SimParams) :
    SimState :=
  let bodies0 := integrateGravity C params state.bodies
  let contacts0 := detectContacts sq C params state.contacts bodies0
  let bodies1 := if params.warmStarting then applyWarmStart bodies0 contacts0 else bodies0
  let solved := runSolver params params.iterations bodies1 contacts0
  let bodies2 := solved.1.map (integrateBody sq C)
  { state with bodies := bodies2, contacts := solved.2.1, solverErrors := solved.2.2 }

/-! ### Specification-side definitions

Definitions below are phrased from the spec's words, to be compared with the
source-translated pipeline above, plus concrete inputs used by witnesses and
counterexamples. -/

/-- The velocity contribution of one warm-started contact to the body stored
at index `k` (spec: "apply its seeded impulse to both bodies' velocities
along the contact normal", scaled by the body's inverse mass; `bodyA`
receives the negative of the impulse, `bodyB` the positive). -/
def warmContribution (c : Contact) (k : Nat) (im : ℚ) : Vec2 :=
  vSub (if c.bIdx = some k then vScale (vScale c.normal c.impulseAcc) im else ⟨0, 0⟩)
       (if c.aIdx = k then vScale (vScale c.normal c.impulseAcc) im else ⟨0, 0⟩)

/-- Total warm-start velocity delta for the body at index `k` over a contact
list. -/
def warmDelta : List Contact → Nat → ℚ → Vec2
  | [], _, _ => ⟨0, 0⟩
  | c :: rest, k, im => vAdd (warmContribution c k im) (warmDelta rest k im)

/-- The bodies/contacts pair reached after `k` complete solver sweeps. -/
def sweepIter (params : SimParams) : Nat → List Body × List Contact → List Body × List Contact
  | 0, sc => sc
  | n + 1, sc =>
      let s := solverSweep params sc.1 sc.2 0
      sweepIter params n (s.1, s.2.1)

/-- All fields of a body other than `pos`, `vel` and `trail` agree: the
fields `stepPhysics` never writes. -/
def samePhys (b1 b : Body) : Prop :=
  b1.id = b.id ∧ b1.radius = b.radius ∧ b1.mass = b.mass ∧ b1.invMass = b.invMass ∧
  b1.color = b.color ∧ b1.restitution = b.restitution ∧ b1.isStatic = b.isStatic

/-- Concrete constants used by witnesses and counterexamples (the arena is
20 m × 40/3 m). -/
def wConsts : Consts :=
  { canvasWidth := 1200, canvasHeight := 800, pixelsPerMeter := 60
  , timestep := 1 / 60, baumgarte := 1 / 5, slop := 1 / 100, trailLength := 30 }

/-- Concrete body builder for witness states. -/
def mkTestBody (id : Int) (px py vx vy r im : ℚ) (st : Bool) : Body :=
  { id := id, pos := ⟨px, py⟩, vel := ⟨vx, vy⟩, radius := r
  , mass := if im = 0 then 0 else 1 / im, invMass := im
  , color := "hsl(0, 70%, 60%)", restitution := 1 / 2, trail := [], isStatic := st }

/-- One dynamic body overlapping the left wall and moving into it. -/
def wSingleState : SimState :=
  { bodies := [mkTestBody 0 (3/10) 5 (-1) 0 (4/10) 1 false]
  , contacts := [], totalEnergy := 7, solverErrors := [] }

/-- A static body embedded past the floor (`pos.y + radius > heightM`). -/
def wStaticState : SimState :=
  { bodies := [mkTestBody 5 10 (40/3) 0 0 (1/2) 0 true]
  , contacts := [], totalEnergy := 3, solverErrors := [] }

/-- Two overlapping dynamic bodies; body 0 also overlaps the left wall and
moves into it, body 1 rams body 0 from the right. -/
def wTwoState : SimState :=
  { bodies := [mkTestBody 0 (3/10) 5 (-1/10) 0 (4/10) 1 false,
               mkTestBody 1 (9/10) 5 (-10) 0 (4/10) 1 false]
  , contacts := [], totalEnergy := 0, solverErrors := [] }

/-- Like `wTwoState` but with a previous-tick contact list carrying an
accumulated impulse for the unordered pair `(1, 0)`. -/
def wWarmState : SimState :=
  { bodies := [mkTestBody 0 (3/10) 5 (-1/10) 0 (4/10) 1 false,
               mkTestBody 1 (9/10) 5 (-10) 0 (4/10) 1 false]
  , contacts := [{ cid := "1-0", aIdx := 1, bIdx := some 0, aId := 1, bId := some 0
                 , normal := ⟨-1, 0⟩, penetration := -1/10, impulseAcc := 3
                 , effectiveMass := 1/2, bias := 0 }]
  , totalEnergy := 0, solverErrors := [] }

/-- A non-static body with `invMass = 0` stranded outside the arena. -/
def wEscapedState : SimState :=
  { bodies := [mkTestBody 2 (-5) 5 0 0 (2/5) 0 false]
  , contacts := [], totalEnergy := 0, solverErrors := [] }

def wParams0 : SimParams :=
  { gravity := 0, iterations := 0, restitution := 0, warmStarting := false }

def wParams1 : SimParams :=
  { gravity := 0, iterations := 1, restitution := 0, warmStarting := false }

def wParams2Warm : SimParams :=
  { gravity := 98/10, iterations := 2, restitution := 1/2, warmStarting := true }

/-! ### Basic lemmas -/

theorem vScale_zero (v : Vec2) : vScale v 0 = ⟨0, 0⟩ := by
  simp [vScale]

theorem vSub_zero (v : Vec2) : vSub v ⟨0, 0⟩ = v := by
  cases v
  simp [vSub]

theorem vAdd_zero (v : Vec2) : vAdd v ⟨0, 0⟩ = v := by
  cases v
  simp [vAdd]

theorem updateVel_getElem? (bs : List Body) (i : Nat) (f : Body → Vec2) (k : Nat) :
    (updateVel bs i f)[k]? =
      if k = i then (bs[i]?).map (fun b => { b with vel := f b }) else bs[k]? := by
  unfold updateVel
  cases hbi : bs[i]? with
  | none =>
    by_cases hk : k = i <;> simp [hk, hbi]
  | some b =>
    have hlen : i < bs.length := by
      rcases List.getElem?_eq_some_iff.mp hbi with ⟨h, _⟩
      exact h
    by_cases hk : k = i
    · subst hk
      simp [List.getElem?_set_self hlen, hbi]
    · simp [List.getElem?_set_ne (fun h => hk h.symm), hk]

theorem updateVel_length (bs : List Body) (i : Nat) (f : Body → Vec2) :
    (updateVel bs i f).length = bs.length := by
  unfold updateVel
  cases bs[i]? <;> simp

theorem warmStartContact_length (bs : List Body) (c : Contact) :
    (warmStartContact bs c).length = bs.length := by
  unfold warmStartContact applyImpulseA applyImpulseB
  cases c.bIdx <;> simp [updateVel_length]

theorem applyWarmStart_length (cs : List Contact) (bs : List Body) :
    (applyWarmStart bs cs).length = bs.length := by
  induction cs generalizing bs with
  | nil => rfl
  | cons c rest ih =>
    simp only [applyWarmStart, List.foldl_cons]
    rw [show List.foldl warmStartContact (warmStartContact bs c) rest
          = applyWarmStart (warmStartContact bs c) rest from rfl]
    rw [ih, warmStartContact_length]

theorem solveContact_bodies_length (params : SimParams) (bs : List Body) (c : Contact) :
    (solveContact params bs c).1.length = bs.length := by
  unfold solveContact applyImpulseA applyImpulseB
  cases c.bIdx <;> simp [updateVel_length]

theorem solverSweep_bodies_length (params : SimParams) (bs : List Body)
    (cs : List Contact) (err : ℚ) :
    (solverSweep params bs cs err).1.length = bs.length := by
  induction cs generalizing bs err with
  | nil => rfl
  | cons c rest ih =>
    simp only [solverSweep]
    rw [ih, solveContact_bodies_length]

theorem runSolver_bodies_length (params : SimParams) (n : Nat) (bs : List Body)
    (cs : List Contact) :
    (runSolver params n bs cs).1.length = bs.length := by
  induction n generalizing bs cs with
  | zero => rfl
  | succ m ih =>
    simp only [runSolver]
    rw [ih, solverSweep_bodies_length]

theorem eta_vel (b : Body) : { b with vel := b.vel } = b := rfl

theorem applyImpulseA_static (bs : List Body) (i k : Nat) (w : Vec2) (b : Body)
    (hb : bs[k]? = some b) (him : b.invMass = 0) :
    (applyImpulseA bs i w)[k]? = some b := by
  unfold applyImpulseA
  rw [updateVel_getElem?]
  by_cases hk : k = i
  · subst hk
    simp [hb, him, vScale_zero, vSub_zero]
    rw [← him]
  · simp [hk, hb]

theorem applyImpulseB_static (bs : List Body) (i k : Nat) (w : Vec2) (b : Body)
    (hb : bs[k]? = some b) (him : b.invMass = 0) :
    (applyImpulseB bs i w)[k]? = some b := by
  unfold applyImpulseB
  rw [updateVel_getElem?]
  by_cases hk : k = i
  · subst hk
    simp [hb, him, vScale_zero, vAdd_zero]
    rw [← him]
  · simp [hk, hb]

theorem warmStartContact_static (bs : List Body) (c : Contact) (k : Nat) (b : Body)
    (hb : bs[k]? = some b) (him : b.invMass = 0) :
    (warmStartContact bs c)[k]? = some b := by
  unfold warmStartContact
  cases c.bIdx with
  | none => exact applyImpulseA_static _ _ _ _ _ hb him
  | some j =>
    exact applyImpulseB_static _ _ _ _ _ (applyImpulseA_static _ _ _ _ _ hb him) him

theorem applyWarmStart_static (cs : List Contact) (bs : List Body) (k : Nat) (b : Body)
    (hb : bs[k]? = some b) (him : b.invMass = 0) :
    (applyWarmStart bs cs)[k]? = some b := by
  induction cs generalizing bs with
  | nil => exact hb
  | cons c rest ih =>
    exact ih (warmStartContact bs c) (warmStartContact_static bs c k b hb him)

theorem solveContact_static (params : SimParams) (bs : List Body) (c : Contact)
    (k : Nat) (b : Body) (hb : bs[k]? = some b) (him : b.invMass = 0) :
    (solveContact params bs c).1[k]? = some b := by
  unfold solveContact
  cases c.bIdx with
  | none =>
    exact applyImpulseA_static _ _ _ _ _ hb him
  | some j =>
    exact applyImpulseB_static _ _ _ _ _ (applyImpulseA_static _ _ _ _ _ hb him) him

theorem solverSweep_static (params : SimParams) (cs : List Contact) (bs : List Body)
    (err : ℚ) (k : Nat) (b : Body) (hb : bs[k]? = some b) (him : b.invMass = 0) :
    (solverSweep params bs cs err).1[k]? = some b := by
  induction cs generalizing bs err with
  | nil => exact hb
  | cons c rest ih =>
    simp only [solverSweep]
    exact ih _ _ (solveContact_static params bs c k b hb him)

theorem runSolver_static (params : SimParams) (n : Nat) (cs : List Contact)
    (bs : List Body) (k : Nat) (b : Body) (hb : bs[k]? = some b) (him : b.invMass = 0) :
    (runSolver params n bs cs).1[k]? = some b := by
  induction n generalizing bs cs with
  | zero => exact hb
  | succ m ih =>
    simp only [runSolver]
    exact ih _ _ (solverSweep_static params cs bs 0 k b hb him)

theorem integrateGravity_static (C : Consts) (params : SimParams) (bs : List Body)
    (k : Nat) (b : Body) (hb : bs[k]? = some b) (him : b.invMass = 0) :
    (integrateGravity C params bs)[k]? = some b := by
  unfold integrateGravity
  rw [List.getElem?_map, hb]
  simp [him]

theorem integrateBody_static (sq : ℚ → ℚ) (C : Consts) (b : Body)
    (hst : b.isStatic = true) : integrateBody sq C b = b := by
  unfold integrateBody
  simp [hst]

/-- C1: for every input state and parameter set, a body that is static (with
its spec-invariant fields `invMass = 0` and `vel = (0,0)`) has, after
`stepPhysics`, the same position it had before the call and velocity `(0,0)`:
no phase of the tick (gravity, warm-start pre-application, solver sweeps,
integration) changes a static body's `pos` or `vel`. -/
theorem c1_static_invariance (sq : ℚ → ℚ) (C : Consts) (s : SimState)
    (params : SimParams) (i : Nat) (b : Body) (hb : s.bodies[i]? = some b)
    (hstatic : b.isStatic = true) (him : b.invMass = 0) (hvel : b.vel = ⟨0, 0⟩) :
    ∃ b1, (stepPhysics sq C s params).bodies[i]? = some b1 ∧
      b1.pos = b.pos ∧ b1.vel = ⟨0, 0⟩ := by
  refine ⟨b, ?_, rfl, hvel⟩
  show ((runSolver params params.iterations
      (if params.warmStarting then
        applyWarmStart (integrateGravity C params s.bodies)
          (detectContacts sq C params s.contacts (integrateGravity C params s.bodies))
       else integrateGravity C params s.bodies)
      (detectContacts sq C params s.contacts (integrateGravity C params s.bodies))).1.map
        (integrateBody sq C))[i]? = some b
  have h1 : (integrateGravity C params s.bodies)[i]? = some b :=
    integrateGravity_static C params s.bodies i b hb him
  have h2 : (if params.warmStarting then
      applyWarmStart (integrateGravity C params s.bodies)
        (detectContacts sq C params s.contacts (integrateGravity C params s.bodies))
     else integrateGravity C params s.bodies)[i]? = some b := by
    by_cases hw : params.warmStarting <;> simp only [hw, if_true, if_false]
    · exact applyWarmStart_static _ _ _ _ h1 him
    · exact h1
  have h3 := runSolver_static params params.iterations
    (detectContacts sq C params s.contacts (integrateGravity C params s.bodies)) _ i b h2 him
  rw [List.getElem?_map, h3]
  simp [integrateBody_static sq C b hstatic]

theorem c1_static_invariance_witness :
    wStaticState.bodies[0]? = some (mkTestBody 5 10 (40/3) 0 0 (1/2) 0 true) ∧
    ∃ b1, (stepPhysics Rat.sqrt wConsts wStaticState wParams2Warm).bodies[0]? = some b1 ∧
      b1.pos = (mkTestBody 5 10 (40/3) 0 0 (1/2) 0 true).pos ∧ b1.vel = ⟨0, 0⟩ :=
  ⟨by with_unfolding_all decide,
   c1_static_invariance Rat.sqrt wConsts wStaticState wParams2Warm 0
     (mkTestBody 5 10 (40/3) 0 0 (1/2) 0 true)
     (by with_unfolding_all decide) (by with_unfolding_all decide)
     (by with_unfolding_all decide) (by with_unfolding_all decide)⟩

theorem updateVel_pointwise (bs : List Body) (i : Nat) (f : Body → Vec2) (k : Nat)
    (b : Body) (hb : bs[k]? = some b) :
    ∃ v, (updateVel bs i f)[k]? = some { b with vel := v } := by
  rw [updateVel_getElem?]
  by_cases hk : k = i
  · subst hk
    rw [if_pos rfl, hb]
    exact ⟨f b, rfl⟩
  · rw [if_neg hk]
    exact ⟨b.vel, hb⟩

theorem warmStartContact_pointwise (bs : List Body) (c : Contact) (k : Nat) (b : Body)
    (hb : bs[k]? = some b) :
    ∃ v, (warmStartContact bs c)[k]? = some { b with vel := v } := by
  unfold warmStartContact applyImpulseA applyImpulseB
  cases c.bIdx with
  | none => exact updateVel_pointwise _ _ _ _ _ hb
  | some j =>
    obtain ⟨v1, h1⟩ := updateVel_pointwise bs c.aIdx _ k b hb
    obtain ⟨v2, h2⟩ := updateVel_pointwise _ j
      (fun b2 => vAdd b2.vel (vScale (vScale c.normal c.impulseAcc) b2.invMass)) k _ h1
    exact ⟨v2, h2⟩

theorem applyWarmStart_pointwise (cs : List Contact) (bs : List Body) (k : Nat) (b : Body)
    (hb : bs[k]? = some b) :
    ∃ v, (applyWarmStart bs cs)[k]? = some { b with vel := v } := by
  induction cs generalizing bs b with
  | nil => exact ⟨b.vel, hb⟩
  | cons c rest ih =>
    obtain ⟨v1, h1⟩ := warmStartContact_pointwise bs c k b hb
    obtain ⟨v2, h2⟩ := ih (warmStartContact bs c) _ h1
    exact ⟨v2, h2⟩

theorem solveContact_pointwise (params : SimParams) (bs : List Body) (c : Contact)
    (k : Nat) (b : Body) (hb : bs[k]? = some b) :
    ∃ v, (solveContact params bs c).1[k]? = some { b with vel := v } := by
  unfold solveContact applyImpulseA applyImpulseB
  cases c.bIdx with
  | none => exact updateVel_pointwise _ _ _ _ _ hb
  | some j =>
    obtain ⟨v1, h1⟩ := updateVel_pointwise bs c.aIdx _ k b hb
    obtain ⟨v2, h2⟩ := updateVel_pointwise _ j _ k _ h1
    exact ⟨v2, h2⟩

theorem solverSweep_pointwise (params : SimParams) (cs : List Contact) (bs : List Body)
    (err : ℚ) (k : Nat) (b : Body) (hb : bs[k]? = some b) :
    ∃ v, (solverSweep params bs cs err).1[k]? = some { b with vel := v } := by
  induction cs generalizing bs err b with
  | nil => exact ⟨b.vel, hb⟩
  | cons c rest ih =>
    simp only [solverSweep]
    obtain ⟨v1, h1⟩ := solveContact_pointwise params bs c k b hb
    obtain ⟨v2, h2⟩ := ih _ (max err |(solveContact params bs c).2.2|) _ h1
    exact ⟨v2, h2⟩

theorem runSolver_pointwise (params : SimParams) (n : Nat) (cs : List Contact)
    (bs : List Body) (k : Nat) (b : Body) (hb : bs[k]? = some b) :
    ∃ v, (runSolver params n bs cs).1[k]? = some { b with vel := v } := by
  induction n generalizing bs cs b with
  | zero => exact ⟨b.vel, hb⟩
  | succ m ih =>
    simp only [runSolver]
    obtain ⟨v1, h1⟩ := solverSweep_pointwise params cs bs 0 k b hb
    obtain ⟨v2, h2⟩ := ih _ _ _ h1
    exact ⟨v2, h2⟩

theorem integrateGravity_pointwise (C : Consts) (params : SimParams) (bs : List Body)
    (k : Nat) (b : Body) (hb : bs[k]? = some b) :
    ∃ v, (integrateGravity C params bs)[k]? = some { b with vel := v } := by
  unfold integrateGravity
  rw [List.getElem?_map, hb]
  simp only [Option.map_some']
  by_cases hg : (decide (b.invMass = 0) || b.isStatic) = true
  · refine ⟨b.vel, ?_⟩
    rw [if_pos hg]
  · refine ⟨⟨b.vel.x, b.vel.y + params.gravity * C.timestep⟩, ?_⟩
    rw [if_neg hg]

/-- Every body index survives to the solver output in the form
`{ b with vel := v }`, and the final body is its integration image. -/
theorem stepPhysics_bodies_pointwise (sq : ℚ → ℚ) (C : Consts) (s : SimState)
    (params : SimParams) (i : Nat) (b : Body) (hb : s.bodies[i]? = some b) :
    ∃ v, (stepPhysics sq C s params).bodies[i]? =
      some (integrateBody sq C { b with vel := v }) := by
  obtain ⟨v0, h0⟩ := integrateGravity_pointwise C params s.bodies i b hb
  have h1 : ∃ v, (if params.warmStarting then
      applyWarmStart (integrateGravity C params s.bodies)
        (detectContacts sq C params s.contacts (integrateGravity C params s.bodies))
     else integrateGravity C params s.bodies)[i]? = some { b with vel := v } := by
    by_cases hw : params.warmStarting <;> simp only [hw, if_true, if_false]
    · obtain ⟨v, hv⟩ := applyWarmStart_pointwise _ _ i _ h0
      exact ⟨v, hv⟩
    · exact ⟨v0, h0⟩
  obtain ⟨v1, h1⟩ := h1
  obtain ⟨v2, h2⟩ := runSolver_pointwise params params.iterations
    (detectContacts sq C params s.contacts (integrateGravity C params s.bodies)) _ i _ h1
  refine ⟨v2, ?_⟩
  show ((runSolver params params.iterations
      (if params.warmStarting then
        applyWarmStart (integrateGravity C params s.bodies)
          (detectContacts sq C params s.contacts (integrateGravity C params s.bodies))
       else integrateGravity C params s.bodies)
      (detectContacts sq C params s.contacts (integrateGravity C params s.bodies))).1.map
        (integrateBody sq C))[i]? = _
  rw [List.getElem?_map, h2]
  rfl

theorem integrateBody_samePhys (sq : ℚ → ℚ) (C : Consts) (b : Body) :
    samePhys (integrateBody sq C b) b := by
  unfold integrateBody samePhys
  by_cases hg : (b.isStatic || decide (b.invMass = 0)) = true
  · rw [if_pos hg]
    exact ⟨rfl, rfl, rfl, rfl, rfl, rfl, rfl⟩
  · rw [if_neg hg]
    exact ⟨rfl, rfl, rfl, rfl, rfl, rfl, rfl⟩

/-- C10: `stepPhysics` never changes `totalEnergy`; the bodies array is
updated in place (same length, and every body keeps its identity and all
fields the tick never writes); only `contacts` and `solverErrors` are
replaced. -/
theorem c10_frame (sq : ℚ → ℚ) (C : Consts) (s : SimState) (params : SimParams) :
    (stepPhysics sq C s params).totalEnergy = s.totalEnergy ∧
    (stepPhysics sq C s params).bodies.length = s.bodies.length ∧
    ∀ (i : Nat) (b : Body), s.bodies[i]? = some b →
      ∃ b1, (stepPhysics sq C s params).bodies[i]? = some b1 ∧ samePhys b1 b := by
  refine ⟨rfl, ?_, ?_⟩
  · show ((runSolver params params.iterations
        (if params.warmStarting then
          applyWarmStart (integrateGravity C params s.bodies)
            (detectContacts sq C params s.contacts (integrateGravity C params s.bodies))
         else integrateGravity C params s.bodies)
        (detectContacts sq C params s.contacts (integrateGravity C params s.bodies))).1.map
          (integrateBody sq C)).length = s.bodies.length
    rw [List.length_map, runSolver_bodies_length]
    by_cases hw : params.warmStarting <;> simp only [hw, if_true, if_false]
    · rw [applyWarmStart_length]
      exact List.length_map s.bodies _
    · exact List.length_map s.bodies _
  · intro i b hb
    obtain ⟨v, hv⟩ := stepPhysics_bodies_pointwise sq C s params i b hb
    refine ⟨integrateBody sq C { b with vel := v }, hv, ?_⟩
    exact integrateBody_samePhys sq C { b with vel := v }

theorem c10_frame_witness :
    (stepPhysics Rat.sqrt wConsts wTwoState wParams1).totalEnergy = wTwoState.totalEnergy ∧
    (stepPhysics Rat.sqrt wConsts wTwoState wParams1).bodies.length = wTwoState.bodies.length ∧
    ∃ b1, (stepPhysics Rat.sqrt wConsts wTwoState wParams1).bodies[0]? = some b1 ∧
      samePhys b1 (mkTestBody 0 (3/10) 5 (-1/10) 0 (4/10) 1 false) :=
  ⟨(c10_frame Rat.sqrt wConsts wTwoState wParams1).1,
   (c10_frame Rat.sqrt wConsts wTwoState wParams1).2.1,
   (c10_frame Rat.sqrt wConsts wTwoState wParams1).2.2 0
     (mkTestBody 0 (3/10) 5 (-1/10) 0 (4/10) 1 false) (by with_unfolding_all decide)⟩

theorem integrateBody_bounds (sq : ℚ → ℚ) (C : Consts) (b : Body)
    (hst : b.isStatic = false) (him : ¬ b.invMass = 0)
    (hw : 2 * b.radius ≤ C.canvasWidth / C.pixelsPerMeter)
    (hh : 2 * b.radius ≤ C.canvasHeight / C.pixelsPerMeter) :
    (b.radius ≤ (integrateBody sq C b).pos.x ∧
     (integrateBody sq C b).pos.x ≤ C.canvasWidth / C.pixelsPerMeter - b.radius) ∧
    (b.radius ≤ (integrateBody sq C b).pos.y ∧
     (integrateBody sq C b).pos.y ≤ C.canvasHeight / C.pixelsPerMeter - b.radius) := by
  have hg : ¬ ((b.isStatic || decide (b.invMass = 0)) = true) := by simp [hst, him]
  unfold integrateBody
  rw [if_neg hg]
  dsimp only
  constructor
  · constructor <;> split_ifs <;> simp_all <;> linarith
  · constructor <;> split_ifs <;> simp_all <;> linarith

/-- C9 (amended): for every input state and parameter set, every non-static
body with `invMass ≠ 0` (the bodies the integrator actually advances) whose
radius is at most half the arena width and height ends the tick with its
disk entirely inside the arena: `radius ≤ pos.x ≤ widthM − radius` and
`radius ≤ pos.y ≤ heightM − radius`, regardless of solver outcome or
velocity. -/
theorem c9_clamp_inside (sq : ℚ → ℚ) (C : Consts) (s : SimState) (params : SimParams)
    (i : Nat) (b b1 : Body) (hb : s.bodies[i]? = some b)
    (hst : b.isStatic = false) (him : b.invMass ≠ 0)
    (hw : b.radius ≤ (C.canvasWidth / C.pixelsPerMeter) / 2)
    (hh : b.radius ≤ (C.canvasHeight / C.pixelsPerMeter) / 2)
    (hb1 : (stepPhysics sq C s params).bodies[i]? = some b1) :
    (b.radius ≤ b1.pos.x ∧ b1.pos.x ≤ C.canvasWidth / C.pixelsPerMeter - b.radius) ∧
    (b.radius ≤ b1.pos.y ∧ b1.pos.y ≤ C.canvasHeight / C.pixelsPerMeter - b.radius) := by
  obtain ⟨v, hv⟩ := stepPhysics_bodies_pointwise sq C s params i b hb
  rw [hb1] at hv
  have hbe : b1 = integrateBody sq C { b with vel := v } := by
    exact Option.some.inj hv
  subst hbe
  have := integrateBody_bounds sq C { b with vel := v } hst him
    (by show 2 * b.radius ≤ _; linarith) (by show 2 * b.radius ≤ _; linarith)
  exact this

/-- C9 counterexample: a body with `isStatic = false` but `invMass = 0` is
skipped by the integrator's clamp, so it can end the tick with
`pos.x < radius` even though it is non-static and small enough; the claim as
stated (for every non-static body) is false. -/
theorem c9_counterexample :
    (wEscapedState.bodies.getD 0 defaultBody).isStatic = false ∧
    (wEscapedState.bodies.getD 0 defaultBody).radius ≤
      (wConsts.canvasWidth / wConsts.pixelsPerMeter) / 2 ∧
    (wEscapedState.bodies.getD 0 defaultBody).radius ≤
      (wConsts.canvasHeight / wConsts.pixelsPerMeter) / 2 ∧
    ((stepPhysics Rat.sqrt wConsts wEscapedState wParams1).bodies.getD 0 defaultBody).pos.x <
      (wEscapedState.bodies.getD 0 defaultBody).radius := by
  with_unfolding_all decide

theorem getElem?_eq_some_getD {α : Type} (l : List α) (i : Nat) (d : α)
    (h : i < l.length) : l[i]? = some (l.getD i d) := by
  rw [List.getElem?_eq_getElem h, List.getD_eq_getElem l d h]

theorem c9_clamp_inside_witness :
    (mkTestBody 0 (3/10) 5 (-1/10) 0 (4/10) 1 false).radius ≤
      (wConsts.canvasWidth / wConsts.pixelsPerMeter) / 2 ∧
    (mkTestBody 0 (3/10) 5 (-1/10) 0 (4/10) 1 false).radius ≤
      ((stepPhysics Rat.sqrt wConsts wTwoState wParams1).bodies.getD 0 defaultBody).pos.x :=
  ⟨by with_unfolding_all decide,
   (c9_clamp_inside Rat.sqrt wConsts wTwoState wParams1 0
     (mkTestBody 0 (3/10) 5 (-1/10) 0 (4/10) 1 false)
     ((stepPhysics Rat.sqrt wConsts wTwoState wParams1).bodies.getD 0 defaultBody)
     (by with_unfolding_all decide) (by with_unfolding_all decide)
     (by with_unfolding_all decide) (by with_unfolding_all decide)
     (by with_unfolding_all decide)
     (getElem?_eq_some_getD _ 0 defaultBody (by with_unfolding_all decide))).1.1⟩

/-- C8: `stepPhysics` is deterministic — it is a pure function of the input
state and parameter set (given the ambient square-root function), drawing no
randomness: equal inputs give results equal in every field. -/
theorem c8_deterministic (sq : ℚ → ℚ) (C : Consts) (s1 s2 : SimState)
    (p1 p2 : SimParams) (hs : s1 = s2) (hp : p1 = p2) :
    stepPhysics sq C s1 p1 = stepPhysics sq C s2 p2 := by
  subst hs
  subst hp
  rfl

theorem c8_deterministic_witness :
    wTwoState = wTwoState ∧
    stepPhysics Rat.sqrt wConsts wTwoState wParams1 =
      stepPhysics Rat.sqrt wConsts wTwoState wParams1 :=
  ⟨rfl, c8_deterministic Rat.sqrt wConsts wTwoState wTwoState wParams1 wParams1 rfl rfl⟩

theorem mem_if_singleton {α : Type} {P : Prop} [Decidable P] {x a : α}
    (h : a ∈ if P then [x] else []) : P ∧ a = x := by
  split_ifs at h with hp
  · exact ⟨hp, List.mem_singleton.mp h⟩
  · simp at h

/-- Inversion for wall-contact membership: every wall contact comes from some
indexed body violating one of the four boundaries, in the source's
constructor form. -/
theorem mem_wallContacts {C : Consts} {params : SimParams} {bs : List Body} {c : Contact}
    (hc : c ∈ wallContacts C params bs) :
    ∃ i b, bs[i]? = some b ∧
      ((C.canvasHeight / C.pixelsPerMeter < b.pos.y + b.radius ∧
        c = createWallContact C b i ⟨0, -1⟩
          (C.canvasHeight / C.pixelsPerMeter - (b.pos.y + b.radius)) params.restitution) ∨
       (b.pos.y - b.radius < 0 ∧
        c = createWallContact C b i ⟨0, 1⟩ (b.pos.y - b.radius - 0) params.restitution) ∨
       (b.pos.x - b.radius < 0 ∧
        c = createWallContact C b i ⟨1, 0⟩ (b.pos.x - b.radius - 0) params.restitution) ∨
       (C.canvasWidth / C.pixelsPerMeter < b.pos.x + b.radius ∧
        c = createWallContact C b i ⟨-1, 0⟩
          (C.canvasWidth / C.pixelsPerMeter - (b.pos.x + b.radius)) params.restitution)) := by
  unfold wallContacts at hc
  rw [List.mem_flatMap] at hc
  obtain ⟨ib, hib, hmem⟩ := hc
  refine ⟨ib.1, ib.2, List.mem_enum_iff_getElem?.mp hib, ?_⟩
  dsimp only at hmem
  rcases List.mem_append.mp hmem with h12 | h4
  · rcases List.mem_append.mp h12 with h1 | h3
    · rcases List.mem_append.mp h1 with h1a | h2
      · exact Or.inl (mem_if_singleton h1a)
      · exact Or.inr (Or.inl (mem_if_singleton h2))
    · exact Or.inr (Or.inr (Or.inl (mem_if_singleton h3)))
  · exact Or.inr (Or.inr (Or.inr (mem_if_singleton h4)))

/-- Inversion for body-body contact membership: each comes from an index pair
`i < j < bs.length` accepted by the narrowphase. -/
theorem mem_bodyContacts {sq : ℚ → ℚ} {C : Consts} {params : SimParams}
    {prev : List Contact} {bs : List Body} {c : Contact}
    (hc : c ∈ bodyContacts sq C params prev bs) :
    ∃ i j, i < j ∧ j < bs.length ∧ pairContact sq C params prev bs i j = some c := by
  unfold bodyContacts at hc
  rw [List.mem_filterMap] at hc
  obtain ⟨ij, hij, hsome⟩ := hc
  unfold pairIndices at hij
  rw [List.mem_flatMap] at hij
  obtain ⟨i, _, hij2⟩ := hij
  rw [List.mem_filterMap] at hij2
  obtain ⟨j, hj, hjeq⟩ := hij2
  split_ifs at hjeq with hlt
  have hij3 : ij = (i, j) := (Option.some.inj hjeq).symm
  subst hij3
  exact ⟨i, j, hlt, List.mem_range.mp hj, hsome⟩

/-- Inversion for an accepted narrowphase pair: all fields of the produced
contact, plus the static-static filter. -/
theorem pairContact_some {sq : ℚ → ℚ} {C : Consts} {params : SimParams}
    {prev : List Contact} {bs : List Body} {i j : Nat} {c : Contact}
    (h : pairContact sq C params prev bs i j = some c) :
    ¬ ((bodyAt bs i).isStatic = true ∧ (bodyAt bs j).isStatic = true) ∧
    c.aIdx = i ∧ c.bIdx = some j ∧
    c.aId = (bodyAt bs i).id ∧ c.bId = some (bodyAt bs j).id ∧
    c.penetration = vDist sq (bodyAt bs i).pos (bodyAt bs j).pos -
      ((bodyAt bs i).radius + (bodyAt bs j).radius) ∧
    c.effectiveMass = (if 0 < (bodyAt bs i).invMass + (bodyAt bs j).invMass then
      1 / ((bodyAt bs i).invMass + (bodyAt bs j).invMass) else 0) ∧
    c.bias = -C.baumgarte * (min 0 (c.penetration + C.slop) / C.timestep) ∧
    c.impulseAcc = (if params.warmStarting then
        match prev.find? (matchesPair (bodyAt bs i).id (bodyAt bs j).id) with
        | some existing => existing.impulseAcc
        | none => 0
      else 0) := by
  unfold pairContact at h
  dsimp only at h
  by_cases hstat : ((bodyAt bs i).isStatic && (bodyAt bs j).isStatic) = true
  · rw [if_pos hstat] at h
    exact absurd h (by simp)
  · rw [if_neg hstat] at h
    by_cases hdist : vDist sq (bodyAt bs i).pos (bodyAt bs j).pos <
        (bodyAt bs i).radius + (bodyAt bs j).radius
    · rw [if_pos hdist] at h
      have hce := (Option.some.inj h).symm
      subst hce
      refine ⟨?_, rfl, rfl, rfl, rfl, rfl, rfl, rfl, rfl⟩
      intro hab
      exact hstat (by simp [hab.1, hab.2])
    · rw [if_neg hdist] at h
      exact absurd h (by simp)

/-- A PGS update only rewrites `impulseAcc` (to `max 0 (old + lambda)`,
hence non-negative); every other contact field is preserved. -/
theorem solveContact_shape (params : SimParams) (bs : List Body) (c : Contact) :
    (solveContact params bs c).2.1 =
      { c with impulseAcc := (solveContact params bs c).2.1.impulseAcc } ∧
    0 ≤ (solveContact params bs c).2.1.impulseAcc := by
  unfold solveContact
  exact ⟨rfl, le_max_left 0 _⟩

theorem solverSweep_contacts_mem (params : SimParams) (cs : List Contact)
    (bs : List Body) (err : ℚ) :
    ∀ c1 ∈ (solverSweep params bs cs err).2.1, ∃ c ∈ cs,
      c1 = { c with impulseAcc := c1.impulseAcc } ∧ 0 ≤ c1.impulseAcc := by
  induction cs generalizing bs err with
  | nil =>
    intro c1 h
    exact absurd h (by simp [solverSweep])
  | cons c rest ih =>
    intro c1 h
    rw [show (solverSweep params bs (c :: rest) err).2.1 =
        (solveContact params bs c).2.1 ::
          (solverSweep params (solveContact params bs c).1 rest
            (max err |(solveContact params bs c).2.2|)).2.1 from rfl] at h
    rcases List.mem_cons.mp h with h1 | h1
    · subst h1
      exact ⟨c, List.mem_cons_self c rest, (solveContact_shape params bs c).1,
        (solveContact_shape params bs c).2⟩
    · obtain ⟨c2, hc2, hsh, hge⟩ := ih _ _ c1 h1
      exact ⟨c2, List.mem_cons_of_mem c hc2, hsh, hge⟩

theorem runSolver_contacts_mem (params : SimParams) (n : Nat) (cs : List Contact)
    (bs : List Body) :
    ∀ c1 ∈ (runSolver params n bs cs).2.1, ∃ c ∈ cs,
      c1 = { c with impulseAcc := c1.impulseAcc } ∧
      (c1.impulseAcc = c.impulseAcc ∨ 0 ≤ c1.impulseAcc) := by
  induction n generalizing bs cs with
  | zero =>
    intro c1 h
    exact ⟨c1, h, rfl, Or.inl rfl⟩
  | succ m ih =>
    intro c1 h
    rw [show (runSolver params (m + 1) bs cs).2.1 =
        (runSolver params m (solverSweep params bs cs 0).1
          (solverSweep params bs cs 0).2.1).2.1 from rfl] at h
    obtain ⟨c2, hc2, hsh2, hd2⟩ := ih _ _ c1 h
    obtain ⟨c, hc, hsh, hge⟩ := solverSweep_contacts_mem params cs bs 0 c2 hc2
    refine ⟨c, hc, ?_, ?_⟩
    · rw [hsh2, hsh]
    · rcases hd2 with he | hge1
      · exact Or.inr (he ▸ hge)
      · exact Or.inr hge1

/-- Every contact in the `stepPhysics` output is a detected contact of this
tick with (possibly) an updated accumulated impulse. -/
theorem stepPhysics_contacts_mem (sq : ℚ → ℚ) (C : Consts) (s : SimState)
    (params : SimParams) :
    ∀ c1 ∈ (stepPhysics sq C s params).contacts,
      ∃ c ∈ detectContacts sq C params s.contacts (integrateGravity C params s.bodies),
        c1 = { c with impulseAcc := c1.impulseAcc } ∧
        (c1.impulseAcc = c.impulseAcc ∨ 0 ≤ c1.impulseAcc) := by
  intro c1 h
  exact runSolver_contacts_mem params params.iterations
    (detectContacts sq C params s.contacts (integrateGravity C params s.bodies)) _ c1 h

theorem detect_impulse (sq : ℚ → ℚ) (C : Consts) (params : SimParams)
    (prev : List Contact) (bs : List Body)
    (hprev : ∀ p ∈ prev, 0 ≤ p.impulseAcc) :
    ∀ c ∈ detectContacts sq C params prev bs, 0 ≤ c.impulseAcc := by
  intro c hc
  rcases List.mem_append.mp hc with hw | hb
  · obtain ⟨i, b, _, hcases⟩ := mem_wallContacts hw
    rcases hcases with ⟨_, he⟩ | ⟨_, he⟩ | ⟨_, he⟩ | ⟨_, he⟩ <;> rw [he] <;>
      exact le_refl 0
  · obtain ⟨i, j, _, _, hpc⟩ := mem_bodyContacts hb
    rw [(pairContact_some hpc).2.2.2.2.2.2.2.2]
    by_cases hwarm : params.warmStarting
    · rw [if_pos hwarm]
      cases hfind : prev.find? (matchesPair (bodyAt bs i).id (bodyAt bs j).id) with
      | none => exact le_refl 0
      | some ex => exact hprev ex (List.mem_of_find?_eq_some hfind)
    · rw [if_neg hwarm]

theorem detect_bias (sq : ℚ → ℚ) (C : Consts) (params : SimParams)
    (prev : List Contact) (bs : List Body) :
    ∀ c ∈ detectContacts sq C params prev bs,
      c.bias = -C.baumgarte * (min 0 (c.penetration + C.slop) / C.timestep) := by
  intro c hc
  rcases List.mem_append.mp hc with hw | hb
  · obtain ⟨i, b, _, hcases⟩ := mem_wallContacts hw
    rcases hcases with ⟨_, he⟩ | ⟨_, he⟩ | ⟨_, he⟩ | ⟨_, he⟩ <;> rw [he] <;> rfl
  · obtain ⟨i, j, _, _, hpc⟩ := mem_bodyContacts hb
    exact (pairContact_some hpc).2.2.2.2.2.2.2.1

/-- C3: if every contact of the input state has non-negative `impulseAcc`,
then every contact of the `stepPhysics` output has `impulseAcc ≥ 0`, and a
single PGS update (`newImpulseAcc = max(0, old + lambda)`) preserves
non-negativity; the initial seeding (zero for wall contacts, a previous
non-negative accumulated impulse or zero for body-body contacts) is
non-negative as well. -/
theorem c3_impulse_nonneg (sq : ℚ → ℚ) (C : Consts) (s : SimState) (params : SimParams)
    (h : ∀ c ∈ s.contacts, 0 ≤ c.impulseAcc) :
    (∀ c ∈ (stepPhysics sq C s params).contacts, 0 ≤ c.impulseAcc) ∧
    (∀ (bs : List Body) (c : Contact), 0 ≤ c.impulseAcc →
      0 ≤ (solveContact params bs c).2.1.impulseAcc) := by
  constructor
  · intro c1 hc1
    obtain ⟨c, hcd, hsh, hd⟩ := stepPhysics_contacts_mem sq C s params c1 hc1
    rcases hd with he | hge
    · rw [he]
      exact detect_impulse sq C params s.contacts _ h c hcd
    · exact hge
  · intro bs c _
    exact (solveContact_shape params bs c).2

theorem c3_impulse_nonneg_witness :
    (∀ c ∈ wWarmState.contacts, 0 ≤ c.impulseAcc) ∧
    (∀ c ∈ (stepPhysics Rat.sqrt wConsts wWarmState wParams2Warm).contacts,
      0 ≤ c.impulseAcc) :=
  ⟨by with_unfolding_all decide,
   (c3_impulse_nonneg Rat.sqrt wConsts wWarmState wParams2Warm
     (by with_unfolding_all decide)).1⟩

/-- C5: every contact of the tick (wall or body-body, surviving to the
output list with bias and penetration unchanged by the solver) has
`bias = −BAUMGARTE · min(0, penetration + SLOP) / TIMESTEP`, computed from
the penetration at construction; in particular `bias = 0` when
`penetration ≥ −SLOP` and `bias > 0` when `penetration < −SLOP`. -/
theorem c5_baumgarte_bias (sq : ℚ → ℚ) (C : Consts) (s : SimState) (params : SimParams)
    (hB : 0 < C.baumgarte) (hT : 0 < C.timestep) :
    ∀ c ∈ (stepPhysics sq C s params).contacts,
      c.bias = -C.baumgarte * (min 0 (c.penetration + C.slop) / C.timestep) ∧
      (-C.slop ≤ c.penetration → c.bias = 0) ∧
      (c.penetration < -C.slop → 0 < c.bias) := by
  intro c1 hc1
  obtain ⟨c, hcd, hsh, _⟩ := stepPhysics_contacts_mem sq C s params c1 hc1
  have hb1 : c1.bias = c.bias := by rw [hsh]
  have hp1 : c1.penetration = c.penetration := by rw [hsh]
  have hform := detect_bias sq C params s.contacts _ c hcd
  rw [hb1, hp1, hform]
  refine ⟨rfl, ?_, ?_⟩
  · intro hge
    have hx : (0 : ℚ) ≤ c.penetration + C.slop := by linarith
    rw [min_eq_left hx]
    simp
  · intro hlt
    have hx : c.penetration + C.slop < 0 := by linarith
    rw [min_eq_right (le_of_lt hx)]
    have h1 : (c.penetration + C.slop) / C.timestep < 0 := div_neg_of_neg_of_pos hx hT
    nlinarith [mul_pos hB (neg_pos.mpr h1)]

theorem c5_baumgarte_bias_witness :
    (0 : ℚ) < wConsts.baumgarte ∧ (0 : ℚ) < wConsts.timestep ∧
    ∀ c ∈ (stepPhysics Rat.sqrt wConsts wSingleState wParams1).contacts,
      c.bias = -wConsts.baumgarte * (min 0 (c.penetration + wConsts.slop) / wConsts.timestep) ∧
      (-wConsts.slop ≤ c.penetration → c.bias = 0) ∧
      (c.penetration < -wConsts.slop → 0 < c.bias) :=
  ⟨by with_unfolding_all decide, by with_unfolding_all decide,
   c5_baumgarte_bias Rat.sqrt wConsts wSingleState wParams1
     (by with_unfolding_all decide) (by with_unfolding_all decide)⟩

theorem bodyAt_eq_of_getElem? {bs : List Body} {i : Nat} {b : Body}
    (h : bs[i]? = some b) : bodyAt bs i = b := by
  unfold bodyAt
  rw [List.getD_eq_getElem?_getD, h]
  rfl

theorem integrateGravity_length (C : Consts) (params : SimParams) (bs : List Body) :
    (integrateGravity C params bs).length = bs.length :=
  List.length_map bs _

theorem integrateGravity_bodyAt (C : Consts) (params : SimParams) (bs : List Body)
    (i : Nat) (h : i < bs.length) :
    ∃ b v, bs[i]? = some b ∧
      bodyAt (integrateGravity C params bs) i = { b with vel := v } := by
  have hb : bs[i]? = some bs[i] := List.getElem?_eq_getElem h
  obtain ⟨v, hv⟩ := integrateGravity_pointwise C params bs i _ hb
  exact ⟨bs[i], v, hb, bodyAt_eq_of_getElem? hv⟩

/-- C2 (amended): every body-body contact of a tick over well-formed bodies
(non-negative `invMass`, positive for non-static bodies) has strictly
positive `effectiveMass`; a wall contact has strictly positive
`effectiveMass` whenever its body is non-static.  (A wall contact of a
static body gets `effectiveMass = 1/0` — `Infinity` in JavaScript, `0` in
this rational model — which is why the claim's "also those whose bodyA is
static" clause fails; see the counterexample.) -/
theorem c2_effective_mass (sq : ℚ → ℚ) (C : Consts) (s : SimState) (params : SimParams)
    (hwf : ∀ b ∈ s.bodies, 0 ≤ b.invMass ∧ (b.isStatic = false → 0 < b.invMass)) :
    ∀ c ∈ (stepPhysics sq C s params).contacts,
      (c.bIdx.isSome = true → 0 < c.effectiveMass) ∧
      (c.bIdx = none → ∀ b, s.bodies[c.aIdx]? = some b → b.isStatic = false →
        0 < c.effectiveMass) := by
  intro c1 hc1
  obtain ⟨c, hcd, hsh, _⟩ := stepPhysics_contacts_mem sq C s params c1 hc1
  have heff : c1.effectiveMass = c.effectiveMass := by rw [hsh]
  have hbidx : c1.bIdx = c.bIdx := by rw [hsh]
  have haidx : c1.aIdx = c.aIdx := by rw [hsh]
  rw [heff, hbidx, haidx]
  rcases List.mem_append.mp hcd with hwall | hbody
  · obtain ⟨i, bg, hbg, hcases⟩ := mem_wallContacts hwall
    have hfacts : c.bIdx = none ∧ c.aIdx = i ∧ c.effectiveMass = 1 / bg.invMass := by
      rcases hcases with ⟨_, he⟩ | ⟨_, he⟩ | ⟨_, he⟩ | ⟨_, he⟩ <;> rw [he] <;>
        exact ⟨rfl, rfl, rfl⟩
    obtain ⟨hb0, ha0, he0⟩ := hfacts
    constructor
    · intro hsome
      rw [hb0] at hsome
      simp at hsome
    · intro _ b hbin hbst
      rw [ha0] at hbin
      obtain ⟨v, hv⟩ := integrateGravity_pointwise C params s.bodies i b hbin
      have hbgb : bg = { b with vel := v } := by
        rw [hv] at hbg
        exact (Option.some.inj hbg).symm
      have hmm : bg.invMass = b.invMass := by rw [hbgb]
      rw [he0, hmm]
      have hbpos : 0 < b.invMass := (hwf b (List.getElem?_mem hbin)).2 hbst
      exact one_div_pos.mpr hbpos
  · obtain ⟨i, j, hij, hjlen, hpc⟩ := mem_bodyContacts hbody
    have hp := pairContact_some hpc
    have hjlen2 : j < s.bodies.length := by
      rwa [integrateGravity_length] at hjlen
    have hilen2 : i < s.bodies.length := lt_trans hij hjlen2
    obtain ⟨bi, vi, hbi, hAi⟩ := integrateGravity_bodyAt C params s.bodies i hilen2
    obtain ⟨bj, vj, hbj, hAj⟩ := integrateGravity_bodyAt C params s.bodies j hjlen2
    have hiA : (bodyAt (integrateGravity C params s.bodies) i).invMass = bi.invMass := by
      rw [hAi]
    have hjA : (bodyAt (integrateGravity C params s.bodies) j).invMass = bj.invMass := by
      rw [hAj]
    have hiS : (bodyAt (integrateGravity C params s.bodies) i).isStatic = bi.isStatic := by
      rw [hAi]
    have hjS : (bodyAt (integrateGravity C params s.bodies) j).isStatic = bj.isStatic := by
      rw [hAj]
    have hone : bi.isStatic = false ∨ bj.isStatic = false := by
      rcases Bool.eq_false_or_eq_true bi.isStatic with h1 | h1
      · rcases Bool.eq_false_or_eq_true bj.isStatic with h2 | h2
        · exact absurd ⟨hiS.trans h1, hjS.trans h2⟩ hp.1
        · exact Or.inr h2
      · exact Or.inl h1
    have hknn : 0 ≤ bi.invMass ∧ 0 ≤ bj.invMass :=
      ⟨(hwf bi (List.getElem?_mem hbi)).1, (hwf bj (List.getElem?_mem hbj)).1⟩
    have hk : 0 < (bodyAt (integrateGravity C params s.bodies) i).invMass +
        (bodyAt (integrateGravity C params s.bodies) j).invMass := by
      rw [hiA, hjA]
      rcases hone with h1 | h1
      · have := (hwf bi (List.getElem?_mem hbi)).2 h1
        linarith [hknn.2]
      · have := (hwf bj (List.getElem?_mem hbj)).2 h1
        linarith [hknn.1]
    constructor
    · intro _
      rw [hp.2.2.2.2.2.2.1, if_pos hk]
      exact one_div_pos.mpr hk
    · intro hnone
      rw [hp.2.2.1] at hnone
      simp at hnone

/-- C2 counterexample: a static body embedded past the floor produces a wall
contact whose `effectiveMass` is `1 / invMass` with `invMass = 0` — in
JavaScript `Infinity`, in this rational model `0` — in either semantics not
a finite, strictly positive number, refuting the claim's "also those whose
bodyA is static" clause. -/
theorem c2_counterexample :
    ∃ c ∈ (stepPhysics Rat.sqrt wConsts wStaticState wParams1).contacts,
      c.effectiveMass = 1 / (0 : ℚ) ∧ ¬ (0 < c.effectiveMass) := by
  with_unfolding_all decide

theorem c2_effective_mass_witness :
    (∀ b ∈ wTwoState.bodies, 0 ≤ b.invMass ∧ (b.isStatic = false → 0 < b.invMass)) ∧
    ∀ c ∈ (stepPhysics Rat.sqrt wConsts wTwoState wParams1).contacts,
      (c.bIdx.isSome = true → 0 < c.effectiveMass) ∧
      (c.bIdx = none → ∀ b, wTwoState.bodies[c.aIdx]? = some b → b.isStatic = false →
        0 < c.effectiveMass) :=
  ⟨by with_unfolding_all decide,
   c2_effective_mass Rat.sqrt wConsts wTwoState wParams1 (by with_unfolding_all decide)⟩

theorem runSolver_errors_length (params : SimParams) (n : Nat) (bs : List Body)
    (cs : List Contact) : (runSolver params n bs cs).2.2.length = n := by
  induction n generalizing bs cs with
  | zero => rfl
  | succ m ih =>
    show ((solverSweep params bs cs 0).2.2 ::
      (runSolver params m (solverSweep params bs cs 0).1
        (solverSweep params bs cs 0).2.1).2.2).length = m + 1
    rw [List.length_cons, ih]

theorem runSolver_errors_get? (params : SimParams) (n : Nat) (bs : List Body)
    (cs : List Contact) (k : Nat) (hk : k < n) :
    (runSolver params n bs cs).2.2[k]? =
      some ((solverSweep params (sweepIter params k (bs, cs)).1
        (sweepIter params k (bs, cs)).2 0).2.2) := by
  induction n generalizing bs cs k with
  | zero => exact absurd hk (Nat.not_lt_zero k)
  | succ m ih =>
    cases k with
    | zero =>
      show ((solverSweep params bs cs 0).2.2 ::
        (runSolver params m (solverSweep params bs cs 0).1
          (solverSweep params bs cs 0).2.1).2.2)[0]? = _
      rw [List.getElem?_cons_zero]
      rfl
    | succ k2 =>
      have hk2 : k2 < m := Nat.lt_of_succ_lt_succ hk
      show ((solverSweep params bs cs 0).2.2 ::
        (runSolver params m (solverSweep params bs cs 0).1
          (solverSweep params bs cs 0).2.1).2.2)[k2 + 1]? = _
      rw [List.getElem?_cons_succ]
      exact ih _ _ k2 hk2

/-- C6: the solver performs exactly `iterations` full sweeps: `solverErrors`
has exactly `iterations` entries, the `k`-th being the running
`max(maxError, |lambda|)` accumulator of sweep `k` (`solverSweep` applied to
the state after `k` sweeps); with `iterations = 0`, `stepPhysics` returns
normally, with all detected contacts present and `solverErrors` empty. -/
theorem c6_solver_iterations (sq : ℚ → ℚ) (C : Consts) (s : SimState)
    (params : SimParams) :
    (stepPhysics sq C s params).solverErrors.length = params.iterations ∧
    (∀ k, k < params.iterations →
      (stepPhysics sq C s params).solverErrors[k]? =
        some ((solverSweep params
          (sweepIter params k
            ((if params.warmStarting then
                applyWarmStart (integrateGravity C params s.bodies)
                  (detectContacts sq C params s.contacts (integrateGravity C params s.bodies))
              else integrateGravity C params s.bodies),
             detectContacts sq C params s.contacts (integrateGravity C params s.bodies))).1
          (sweepIter params k
            ((if params.warmStarting then
                applyWarmStart (integrateGravity C params s.bodies)
                  (detectContacts sq C params s.contacts (integrateGravity C params s.bodies))
              else integrateGravity C params s.bodies),
             detectContacts sq C params s.contacts (integrateGravity C params s.bodies))).2
          0).2.2)) ∧
    (params.iterations = 0 →
      (stepPhysics sq C s params).contacts =
        detectContacts sq C params s.contacts (integrateGravity C params s.bodies) ∧
      (stepPhysics sq C s params).solverErrors = []) := by
  refine ⟨?_, ?_, ?_⟩
  · exact runSolver_errors_length params params.iterations _ _
  · intro k hk
    exact runSolver_errors_get? params params.iterations _ _ k hk
  · intro h0
    constructor
    · show (runSolver params params.iterations
        (if params.warmStarting then
          applyWarmStart (integrateGravity C params s.bodies)
            (detectContacts sq C params s.contacts (integrateGravity C params s.bodies))
         else integrateGravity C params s.bodies)
        (detectContacts sq C params s.contacts (integrateGravity C params s.bodies))).2.1 =
        detectContacts sq C params s.contacts (integrateGravity C params s.bodies)
      rw [h0]
      rfl
    · show (runSolver params params.iterations
        (if params.warmStarting then
          applyWarmStart (integrateGravity C params s.bodies)
            (detectContacts sq C params s.contacts (integrateGravity C params s.bodies))
         else integrateGravity C params s.bodies)
        (detectContacts sq C params s.contacts (integrateGravity C params s.bodies))).2.2 = []
      rw [h0]
      rfl

theorem c6_solver_iterations_witness :
    (stepPhysics Rat.sqrt wConsts wSingleState wParams1).solverErrors.length =
      wParams1.iterations ∧
    (stepPhysics Rat.sqrt wConsts wSingleState wParams1).solverErrors[0]? =
      some ((solverSweep wParams1
        (sweepIter wParams1 0
          ((if wParams1.warmStarting then
              applyWarmStart (integrateGravity wConsts wParams1 wSingleState.bodies)
                (detectContacts Rat.sqrt wConsts wParams1 wSingleState.contacts
                  (integrateGravity wConsts wParams1 wSingleState.bodies))
            else integrateGravity wConsts wParams1 wSingleState.bodies),
           detectContacts Rat.sqrt wConsts wParams1 wSingleState.contacts
             (integrateGravity wConsts wParams1 wSingleState.bodies))).1
        (sweepIter wParams1 0
          ((if wParams1.warmStarting then
              applyWarmStart (integrateGravity wConsts wParams1 wSingleState.bodies)
                (detectContacts Rat.sqrt wConsts wParams1 wSingleState.contacts
                  (integrateGravity wConsts wParams1 wSingleState.bodies))
            else integrateGravity wConsts wParams1 wSingleState.bodies),
           detectContacts Rat.sqrt wConsts wParams1 wSingleState.contacts
             (integrateGravity wConsts wParams1 wSingleState.bodies))).2
        0).2.2) ∧
    ((stepPhysics Rat.sqrt wConsts wSingleState wParams0).contacts =
       detectContacts Rat.sqrt wConsts wParams0 wSingleState.contacts
         (integrateGravity wConsts wParams0 wSingleState.bodies) ∧
     (stepPhysics Rat.sqrt wConsts wSingleState wParams0).solverErrors = []) :=
  ⟨(c6_solver_iterations Rat.sqrt wConsts wSingleState wParams1).1,
   (c6_solver_iterations Rat.sqrt wConsts wSingleState wParams1).2.1 0
     (by with_unfolding_all decide),
   (c6_solver_iterations Rat.sqrt wConsts wSingleState wParams0).2.2 rfl⟩

theorem zero_vScale (s : ℚ) : vScale ⟨0, 0⟩ s = ⟨0, 0⟩ := by
  simp [vScale]

theorem vAdd_sub_zero_zero (v : Vec2) : vAdd v (vSub ⟨0, 0⟩ ⟨0, 0⟩) = v := by
  cases v
  simp [vAdd, vSub]

/-- One warm-start application, pointwise: body `k` gains exactly
`warmContribution c k invMass` on its velocity. -/
theorem warmStartContact_getElem? (bs : List Body) (c : Contact) (k : Nat) :
    (warmStartContact bs c)[k]? = (bs[k]?).map
      (fun b => { b with vel := vAdd b.vel (warmContribution c k b.invMass) }) := by
  unfold warmStartContact applyImpulseA applyImpulseB
  cases hcb : c.bIdx with
  | none =>
    rw [updateVel_getElem?]
    by_cases hk : k = c.aIdx
    · rw [if_pos hk, ← hk]
      cases hbk : bs[k]? with
      | none => rfl
      | some b =>
        simp only [Option.map_some', Option.some.injEq]
        unfold warmContribution
        rw [hcb, if_neg (by simp), if_pos hk.symm]
        simp [vAdd, vSub, vScale, Vec2.mk.injEq]
        all_goals first
        | (constructor <;> ring)
        | ring
        | rfl
    · rw [if_neg hk]
      cases hbk : bs[k]? with
      | none => rfl
      | some b =>
        simp only [Option.map_some', Option.some.injEq]
        unfold warmContribution
        rw [hcb, if_neg (by simp), if_neg (fun h => hk h.symm), vAdd_sub_zero_zero]
  | some j =>
    rw [updateVel_getElem?]
    by_cases hkj : k = j
    · rw [if_pos hkj]
      rw [updateVel_getElem?]
      by_cases hja : j = c.aIdx
      · rw [if_pos hja, ← hja, ← hkj]
        cases hbk : bs[k]? with
        | none => rfl
        | some b =>
          simp only [Option.map_some', Option.some.injEq]
          unfold warmContribution
          rw [hcb, if_pos (by rw [hkj]), if_pos (by rw [hkj, hja])]
          simp [vAdd, vSub, vScale, Vec2.mk.injEq]
          all_goals first
          | (constructor <;> ring)
          | ring
          | rfl
      · rw [if_neg hja, ← hkj]
        cases hbk : bs[k]? with
        | none => rfl
        | some b =>
          simp only [Option.map_some', Option.some.injEq]
          unfold warmContribution
          rw [hcb, if_pos (by rw [hkj]), if_neg (fun h => hja (hkj ▸ h.symm))]
          simp [vAdd, vSub, vScale, Vec2.mk.injEq]
          all_goals first
          | (constructor <;> ring)
          | ring
          | rfl
    · rw [if_neg hkj]
      rw [updateVel_getElem?]
      by_cases hka : k = c.aIdx
      · rw [if_pos hka, ← hka]
        cases hbk : bs[k]? with
        | none => rfl
        | some b =>
          simp only [Option.map_some', Option.some.injEq]
          unfold warmContribution
          rw [hcb, if_neg (fun h => hkj (Option.some.inj h).symm), if_pos hka.symm]
          simp [vAdd, vSub, vScale, Vec2.mk.injEq]
          all_goals first
          | (constructor <;> ring)
          | ring
          | rfl
      · rw [if_neg hka]
        cases hbk : bs[k]? with
        | none => rfl
        | some b =>
          simp only [Option.map_some', Option.some.injEq]
          unfold warmContribution
          rw [hcb, if_neg (fun h => hkj (Option.some.inj h).symm),
            if_neg (fun h => hka h.symm), vAdd_sub_zero_zero]

theorem vAdd_assoc (a b c : Vec2) : vAdd (vAdd a b) c = vAdd a (vAdd b c) := by
  cases a
  cases b
  cases c
  simp [vAdd, Vec2.mk.injEq]
  constructor <;> ring

/-- Warm-start pre-application over the whole contact list, pointwise: body
`k` gains the sum of the per-contact contributions. -/
theorem applyWarmStart_getElem? (cs : List Contact) (bs : List Body) (k : Nat) :
    (applyWarmStart bs cs)[k]? = (bs[k]?).map
      (fun b => { b with vel := vAdd b.vel (warmDelta cs k b.invMass) }) := by
  induction cs generalizing bs with
  | nil =>
    rw [show applyWarmStart bs ([] : List Contact) = bs from rfl]
    cases hbk : bs[k]? with
    | none => rfl
    | some b =>
      rw [Option.map_some',
        show warmDelta ([] : List Contact) k b.invMass = (⟨0, 0⟩ : Vec2) from rfl, vAdd_zero]
  | cons c rest ih =>
    rw [show applyWarmStart bs (c :: rest) = applyWarmStart (warmStartContact bs c) rest
      from rfl]
    rw [ih, warmStartContact_getElem?, Option.map_map]
    cases hbk : bs[k]? with
    | none => rfl
    | some b =>
      simp only [Option.map_some', Function.comp_apply, Option.some.injEq]
      rw [show warmDelta (c :: rest) k b.invMass =
        vAdd (warmContribution c k b.invMass) (warmDelta rest k b.invMass) from rfl]
      rw [← vAdd_assoc]

theorem warmDelta_zero (cs : List Contact) (k : Nat) (im : ℚ)
    (h : ∀ c ∈ cs, c.impulseAcc = 0) : warmDelta cs k im = ⟨0, 0⟩ := by
  induction cs with
  | nil => rfl
  | cons c rest ih =>
    show vAdd (warmContribution c k im) (warmDelta rest k im) = _
    rw [ih (fun c2 hc2 => h c2 (List.mem_cons_of_mem c hc2)), vAdd_zero]
    unfold warmContribution
    rw [h c (List.mem_cons_self c rest)]
    have hz : vScale (vScale c.normal 0) im = ⟨0, 0⟩ := by
      rw [vScale_zero, zero_vScale]
    by_cases h1 : c.bIdx = some k <;> by_cases h2 : c.aIdx = k <;>
      simp [h1, h2, hz, vSub]

/-- If every seeded impulse is zero, the warm-start pre-application leaves
the body list unchanged. -/
theorem applyWarmStart_id (cs : List Contact) (bs : List Body)
    (h : ∀ c ∈ cs, c.impulseAcc = 0) : applyWarmStart bs cs = bs := by
  apply List.ext_getElem?
  intro k
  rw [applyWarmStart_getElem?]
  cases hbk : bs[k]? with
  | none => rfl
  | some b =>
    rw [Option.map_some', warmDelta_zero cs k b.invMass h, vAdd_zero]

theorem detect_seed (sq : ℚ → ℚ) (C : Consts) (params : SimParams)
    (prev : List Contact) (bs : List Body) :
    ∀ c ∈ detectContacts sq C params prev bs,
      (c.bIdx = none → c.impulseAcc = 0) ∧
      (∀ jb, c.bId = some jb →
        c.impulseAcc = if params.warmStarting then
          (match prev.find? (matchesPair c.aId jb) with
           | some ex => ex.impulseAcc
           | none => 0)
        else 0) ∧
      (params.warmStarting = false → c.impulseAcc = 0) := by
  intro c hc
  rcases List.mem_append.mp hc with hw | hb
  · obtain ⟨i, b, _, hcases⟩ := mem_wallContacts hw
    have hfacts : c.bId = none ∧ c.impulseAcc = 0 := by
      rcases hcases with ⟨_, he⟩ | ⟨_, he⟩ | ⟨_, he⟩ | ⟨_, he⟩ <;> rw [he] <;>
        exact ⟨rfl, rfl⟩
    refine ⟨fun _ => hfacts.2, fun jb hjb => ?_, fun _ => hfacts.2⟩
    exact absurd (hfacts.1.symm.trans hjb) (by simp)
  · obtain ⟨i, j, _, _, hpc⟩ := mem_bodyContacts hb
    have hp := pairContact_some hpc
    refine ⟨fun hnone => ?_, fun jb hjb => ?_, fun hcold => ?_⟩
    · rw [hp.2.2.1] at hnone
      exact absurd hnone (by simp)
    · have hjb2 : jb = (bodyAt bs j).id :=
        (Option.some.inj ((hp.2.2.2.2.1).symm.trans hjb)).symm
      rw [hp.2.2.2.2.2.2.2.2, hp.2.2.2.1, hjb2]
    · rw [hp.2.2.2.2.2.2.2.2, if_neg (by rw [hcold]; exact Bool.false_ne_true)]

/-- C4: with warm starting enabled, every wall contact of the tick starts at
`impulseAcc = 0` and every body-body contact starts at the accumulated
impulse of the first previous-tick contact matching its unordered pair of
body ids (or `0` when none matches); before the first sweep each contact's
seeded impulse is applied to both bodies' velocities along the contact
normal, scaled by each body's inverse mass (`warmDelta`).  With warm
starting disabled, every contact starts at `0` and the pre-application is
the identity on the body list. -/
theorem c4_warm_start (sq : ℚ → ℚ) (C : Consts) (s : SimState) (params : SimParams) :
    (params.warmStarting = true →
      ∀ c ∈ detectContacts sq C params s.contacts (integrateGravity C params s.bodies),
        (c.bIdx = none → c.impulseAcc = 0) ∧
        (∀ jb, c.bId = some jb →
          c.impulseAcc = match s.contacts.find? (matchesPair c.aId jb) with
            | some ex => ex.impulseAcc
            | none => 0)) ∧
    (∀ (k : Nat) (b : Body), (integrateGravity C params s.bodies)[k]? = some b →
      (applyWarmStart (integrateGravity C params s.bodies)
        (detectContacts sq C params s.contacts (integrateGravity C params s.bodies)))[k]? =
        some { b with
                 vel := vAdd b.vel
                   (warmDelta (detectContacts sq C params s.contacts
                     (integrateGravity C params s.bodies)) k b.invMass) }) ∧
    (params.warmStarting = false →
      (∀ c ∈ detectContacts sq C params s.contacts (integrateGravity C params s.bodies),
        c.impulseAcc = 0) ∧
      applyWarmStart (integrateGravity C params s.bodies)
        (detectContacts sq C params s.contacts (integrateGravity C params s.bodies)) =
        integrateGravity C params s.bodies) := by
  refine ⟨?_, ?_, ?_⟩
  · intro hwarm c hc
    have hs := detect_seed sq C params s.contacts _ c hc
    refine ⟨hs.1, fun jb hjb => ?_⟩
    rw [(hs.2.1) jb hjb, if_pos hwarm]
  · intro k b hb
    rw [applyWarmStart_getElem?, hb]
    rfl
  · intro hcold
    have hz : ∀ c ∈ detectContacts sq C params s.contacts
        (integrateGravity C params s.bodies), c.impulseAcc = 0 := by
      intro c hc
      exact (detect_seed sq C params s.contacts _ c hc).2.2 hcold
    exact ⟨hz, applyWarmStart_id _ _ hz⟩

theorem c4_warm_start_witness :
    wParams2Warm.warmStarting = true ∧
    (∀ c ∈ detectContacts Rat.sqrt wConsts wParams2Warm wWarmState.contacts
        (integrateGravity wConsts wParams2Warm wWarmState.bodies),
      (c.bIdx = none → c.impulseAcc = 0) ∧
      (∀ jb, c.bId = some jb →
        c.impulseAcc = match wWarmState.contacts.find? (matchesPair c.aId jb) with
          | some ex => ex.impulseAcc
          | none => 0)) ∧
    (applyWarmStart (integrateGravity wConsts wParams2Warm wWarmState.bodies)
        (detectContacts Rat.sqrt wConsts wParams2Warm wWarmState.contacts
          (integrateGravity wConsts wParams2Warm wWarmState.bodies)))[0]? =
      some { (mkTestBody 0 (3/10) 5 (-1/10) (49/300) (4/10) 1 false) with
               vel := vAdd (mkTestBody 0 (3/10) 5 (-1/10) (49/300) (4/10) 1 false).vel
                 (warmDelta (detectContacts Rat.sqrt wConsts wParams2Warm wWarmState.contacts
                   (integrateGravity wConsts wParams2Warm wWarmState.bodies)) 0
                   (mkTestBody 0 (3/10) 5 (-1/10) (49/300) (4/10) 1 false).invMass) } ∧
    wParams1.warmStarting = false ∧
    applyWarmStart (integrateGravity wConsts wParams1 wWarmState.bodies)
      (detectContacts Rat.sqrt wConsts wParams1 wWarmState.contacts
        (integrateGravity wConsts wParams1 wWarmState.bodies)) =
      integrateGravity wConsts wParams1 wWarmState.bodies :=
  ⟨by with_unfolding_all decide,
   (c4_warm_start Rat.sqrt wConsts wWarmState wParams2Warm).1 (by with_unfolding_all decide),
   (c4_warm_start Rat.sqrt wConsts wWarmState wParams2Warm).2.1 0
     (mkTestBody 0 (3/10) 5 (-1/10) (49/300) (4/10) 1 false) (by with_unfolding_all decide),
   by with_unfolding_all decide,
   ((c4_warm_start Rat.sqrt wConsts wWarmState wParams1).2.2
     (by with_unfolding_all decide)).2⟩

theorem applyImpulseA_singleton (x : Body) (w : Vec2) :
    applyImpulseA [x] 0 w = [{ x with vel := vSub x.vel (vScale w x.invMass) }] := rfl

theorem vSub_zero_pair (v0 vy : ℚ) (ny d im : ℚ) :
    vSub ⟨v0, vy⟩ (vScale (vScale ⟨0, ny⟩ d) im) = ⟨v0, vy - ny * d * im⟩ := by
  simp [vSub, vScale, Vec2.mk.injEq]

theorem vDot_left_wall (v0 vy : ℚ) :
    vDot (vSub ⟨0, 0⟩ ⟨v0, vy⟩) ⟨1, 0⟩ = -v0 := by
  simp [vDot, vSub]

/-- One PGS update in the single-body left-wall scenario: a contact whose
normal has zero x-component never changes `vel.x`; the left-wall contact
(normal `(1,0)`, zero accumulated impulse, positive effective mass,
non-negative bias) computes a negative `lambda`, clamps to zero and leaves
the body untouched. -/
theorem c7_solve_preserve (params : SimParams) (b : Body) (v0 : ℚ) (hv0 : v0 < 0)
    (c : Contact) (vy : ℚ) (ha : c.aIdx = 0) (hbn : c.bIdx = none)
    (hP : c.normal.x = 0 ∨ (c.normal = ⟨1, 0⟩ ∧ c.impulseAcc = 0 ∧
      0 < c.effectiveMass ∧ 0 ≤ c.bias)) :
    (∃ vy2, (solveContact params [{ b with vel := ⟨v0, vy⟩ }] c).1 =
      [{ b with vel := ⟨v0, vy2⟩ }]) ∧
    (solveContact params [{ b with vel := ⟨v0, vy⟩ }] c).2.1.aIdx = 0 ∧
    (solveContact params [{ b with vel := ⟨v0, vy⟩ }] c).2.1.bIdx = none ∧
    ((solveContact params [{ b with vel := ⟨v0, vy⟩ }] c).2.1.normal.x = 0 ∨
      ((solveContact params [{ b with vel := ⟨v0, vy⟩ }] c).2.1.normal = ⟨1, 0⟩ ∧
       (solveContact params [{ b with vel := ⟨v0, vy⟩ }] c).2.1.impulseAcc = 0 ∧
       0 < (solveContact params [{ b with vel := ⟨v0, vy⟩ }] c).2.1.effectiveMass ∧
       0 ≤ (solveContact params [{ b with vel := ⟨v0, vy⟩ }] c).2.1.bias)) := by
  rcases c with ⟨cid, aIdx, bIdx, aId, bId, normal, pen, acc, em, bias⟩
  rcases normal with ⟨nx, ny⟩
  dsimp only at ha hbn hP ⊢
  subst ha
  subst hbn
  rcases hP with hnx | ⟨hnn, hacc, hem, hbias⟩
  · subst hnx
    unfold solveContact
    dsimp only
    rw [applyImpulseA_singleton]
    dsimp only
    rw [vSub_zero_pair]
    exact ⟨⟨_, rfl⟩, rfl, rfl, Or.inl rfl⟩
  · have hnx : nx = 1 := by
      have := congrArg Vec2.x hnn
      simpa using this
    have hny : ny = 0 := by
      have := congrArg Vec2.y hnn
      simpa using this
    subst hnx
    subst hny
    subst hacc
    unfold solveContact
    dsimp only
    rw [show (bodyAt [{ b with vel := (⟨v0, vy⟩ : Vec2) }] 0).vel = (⟨v0, vy⟩ : Vec2)
      from rfl]
    rw [vDot_left_wall]
    rw [if_neg (show ¬ (-v0 < -1) by linarith)]
    have hlam : -em * (-v0 + bias + 0) ≤ 0 := by
      have hpos : 0 < -v0 + bias + 0 := by linarith
      nlinarith
    rw [show max 0 (0 + -em * (-v0 + bias + 0)) = 0 from
      max_eq_left (by linarith)]
    rw [show (0 : ℚ) - 0 = 0 from by ring]
    rw [vScale_zero, applyImpulseA_singleton, zero_vScale, vSub_zero]
    exact ⟨⟨vy, rfl⟩, rfl, rfl, Or.inr ⟨rfl, rfl, hem, hbias⟩⟩

theorem c7_sweep_preserve (params : SimParams) (b : Body) (v0 : ℚ) (hv0 : v0 < 0) :
    ∀ (cs : List Contact) (vy err : ℚ),
      (∀ c ∈ cs, c.aIdx = 0 ∧ c.bIdx = none ∧ (c.normal.x = 0 ∨ (c.normal = ⟨1, 0⟩ ∧
        c.impulseAcc = 0 ∧ 0 < c.effectiveMass ∧ 0 ≤ c.bias))) →
      (∃ vy2, (solverSweep params [{ b with vel := ⟨v0, vy⟩ }] cs err).1 =
        [{ b with vel := ⟨v0, vy2⟩ }]) ∧
      (∀ c1 ∈ (solverSweep params [{ b with vel := ⟨v0, vy⟩ }] cs err).2.1,
        c1.aIdx = 0 ∧ c1.bIdx = none ∧ (c1.normal.x = 0 ∨ (c1.normal = ⟨1, 0⟩ ∧
          c1.impulseAcc = 0 ∧ 0 < c1.effectiveMass ∧ 0 ≤ c1.bias))) := by
  intro cs
  induction cs with
  | nil =>
    intro vy err h
    refine ⟨⟨vy, rfl⟩, ?_⟩
    intro c1 h1
    exact absurd h1 (by simp [solverSweep])
  | cons c rest ih =>
    intro vy err h
    have hc := h c (List.mem_cons_self c rest)
    obtain ⟨⟨vy1, hb1⟩, ha1, hbx1, hP1⟩ :=
      c7_solve_preserve params b v0 hv0 c vy hc.1 hc.2.1 hc.2.2
    have he1 : (solverSweep params [{ b with vel := ⟨v0, vy⟩ }] (c :: rest) err).1 =
        (solverSweep params (solveContact params [{ b with vel := ⟨v0, vy⟩ }] c).1 rest
          (max err |(solveContact params [{ b with vel := ⟨v0, vy⟩ }] c).2.2|)).1 := rfl
    have he2 : (solverSweep params [{ b with vel := ⟨v0, vy⟩ }] (c :: rest) err).2.1 =
        (solveContact params [{ b with vel := ⟨v0, vy⟩ }] c).2.1 ::
          (solverSweep params (solveContact params [{ b with vel := ⟨v0, vy⟩ }] c).1 rest
            (max err |(solveContact params [{ b with vel := ⟨v0, vy⟩ }] c).2.2|)).2.1 := rfl
    rw [he1, he2, hb1]
    obtain ⟨⟨vy2, hb2⟩, hP2⟩ :=
      ih vy1 (max err |(solveContact params [{ b with vel := ⟨v0, vy⟩ }] c).2.2|)
        (fun c2 h2 => h c2 (List.mem_cons_of_mem c h2))
    refine ⟨⟨vy2, hb2⟩, ?_⟩
    intro c1 h1
    rcases List.mem_cons.mp h1 with h1 | h1
    · subst h1
      exact ⟨ha1, hbx1, hP1⟩
    · exact hP2 c1 h1

theorem c7_run_preserve (params : SimParams) (b : Body) (v0 : ℚ) (hv0 : v0 < 0) :
    ∀ (n : Nat) (cs : List Contact) (vy : ℚ),
      (∀ c ∈ cs, c.aIdx = 0 ∧ c.bIdx = none ∧ (c.normal.x = 0 ∨ (c.normal = ⟨1, 0⟩ ∧
        c.impulseAcc = 0 ∧ 0 < c.effectiveMass ∧ 0 ≤ c.bias))) →
      ∃ vy2, (runSolver params n [{ b with vel := ⟨v0, vy⟩ }] cs).1 =
        [{ b with vel := ⟨v0, vy2⟩ }] := by
  intro n
  induction n with
  | zero =>
    intro cs vy h
    exact ⟨vy, rfl⟩
  | succ m ih =>
    intro cs vy h
    obtain ⟨⟨vy1, hb1⟩, hP1⟩ := c7_sweep_preserve params b v0 hv0 cs vy 0 h
    have he : (runSolver params (m + 1) [{ b with vel := ⟨v0, vy⟩ }] cs).1 =
        (runSolver params m (solverSweep params [{ b with vel := ⟨v0, vy⟩ }] cs 0).1
          (solverSweep params [{ b with vel := ⟨v0, vy⟩ }] cs 0).2.1).1 := rfl
    rw [he, hb1]
    exact ih _ vy1 hP1

theorem integrateBody_left (sq : ℚ → ℚ) (C : Consts) (b2 : Body)
    (hst : b2.isStatic = false) (him : ¬ b2.invMass = 0)
    (hc1 : (vAdd b2.pos (vScale b2.vel C.timestep)).x - b2.radius < 0)
    (hc2 : ¬ (C.canvasWidth / C.pixelsPerMeter < b2.radius + b2.radius)) :
    (integrateBody sq C b2).pos.x = b2.radius ∧
    (integrateBody sq C b2).vel.x = b2.vel.x * (-1 / 2) := by
  unfold integrateBody
  rw [if_neg (by simp [hst, him])]
  dsimp only
  rw [if_pos hc1]
  dsimp only
  rw [if_neg hc2]
  exact ⟨rfl, rfl⟩

/-- C7 (amended): in a single-body state — so that no body-body contact can
alter the velocity between entry and integration — a non-static body
(`invMass > 0`) entering the tick with `pos.x − radius < 0` and `vel.x < 0`
ends the tick with `pos.x = radius` exactly and `vel.x = −0.5 ·` the incoming
`vel.x` (fit within the arena, positive timestep, non-negative Baumgarte
factor). -/
theorem c7_left_wall_clamp (sq : ℚ → ℚ) (C : Consts) (s : SimState) (params : SimParams)
    (b : Body) (hbs : s.bodies = [b]) (hst : b.isStatic = false) (him : 0 < b.invMass)
    (hpos : b.pos.x - b.radius < 0) (hvel : b.vel.x < 0)
    (hw : 2 * b.radius ≤ C.canvasWidth / C.pixelsPerMeter)
    (hT : 0 < C.timestep) (hB : 0 ≤ C.baumgarte) :
    ∃ b1, (stepPhysics sq C s params).bodies[0]? = some b1 ∧
      b1.pos.x = b.radius ∧ b1.vel.x = -(1 / 2) * b.vel.x := by
  have hgrav : integrateGravity C params s.bodies =
      [{ b with vel := ⟨b.vel.x, b.vel.y + params.gravity * C.timestep⟩ }] := by
    rw [hbs]
    unfold integrateGravity
    rw [List.map_cons, List.map_nil, if_neg (by simp [hst, him.ne'])]
  have hwallbias : ∀ pen : ℚ, 0 ≤ -C.baumgarte * (min 0 (pen + C.slop) / C.timestep) := by
    intro pen
    have h1 : min 0 (pen + C.slop) ≤ 0 := min_le_left 0 _
    have h2 : min 0 (pen + C.slop) / C.timestep ≤ 0 :=
      div_nonpos_of_nonpos_of_nonneg h1 (le_of_lt hT)
    nlinarith
  have hPdet : ∀ c ∈ detectContacts sq C params s.contacts
      (integrateGravity C params s.bodies),
      (c.aIdx = 0 ∧ c.bIdx = none ∧ (c.normal.x = 0 ∨ (c.normal = ⟨1, 0⟩ ∧
        c.impulseAcc = 0 ∧ 0 < c.effectiveMass ∧ 0 ≤ c.bias))) ∧ c.impulseAcc = 0 := by
    rw [hgrav]
    intro c hc
    rcases List.mem_append.mp hc with hwall | hbody
    · obtain ⟨i, bb, hbb, hcases⟩ := mem_wallContacts hwall
      have hi0 : i = 0 ∧ bb = { b with vel := ⟨b.vel.x, b.vel.y + params.gravity * C.timestep⟩ } := by
        cases i with
        | zero =>
          simp only [List.getElem?_cons_zero, Option.some.injEq] at hbb
          exact ⟨rfl, hbb.symm⟩
        | succ i2 =>
          rw [List.getElem?_cons_succ] at hbb
          exact absurd hbb (by simp)
      obtain ⟨hi, hbbe⟩ := hi0
      subst hi
      subst hbbe
      rcases hcases with ⟨hcond, he⟩ | ⟨hcond, he⟩ | ⟨hcond, he⟩ | ⟨hcond, he⟩
      · rw [he]
        exact ⟨⟨rfl, rfl, Or.inl rfl⟩, rfl⟩
      · rw [he]
        exact ⟨⟨rfl, rfl, Or.inl rfl⟩, rfl⟩
      · rw [he]
        refine ⟨⟨rfl, rfl, Or.inr ⟨rfl, rfl, ?_, ?_⟩⟩, rfl⟩
        · exact one_div_pos.mpr him
        · exact hwallbias _
      · exfalso
        revert hcond
        dsimp only
        intro hcond
        linarith
    · exact absurd hbody (by
        rw [show bodyContacts sq C params s.contacts
          [{ b with vel := ⟨b.vel.x, b.vel.y + params.gravity * C.timestep⟩ }] =
          ([] : List Contact) from rfl]
        simp)
  have hwid : (if params.warmStarting then
      applyWarmStart (integrateGravity C params s.bodies)
        (detectContacts sq C params s.contacts (integrateGravity C params s.bodies))
     else integrateGravity C params s.bodies) = integrateGravity C params s.bodies := by
    by_cases hwv : params.warmStarting
    · rw [if_pos hwv]
      exact applyWarmStart_id _ _ (fun c hc => (hPdet c hc).2)
    · rw [if_neg hwv]
  obtain ⟨vyf, hsolved⟩ := c7_run_preserve params b b.vel.x hvel params.iterations
    (detectContacts sq C params s.contacts (integrateGravity C params s.bodies))
    (b.vel.y + params.gravity * C.timestep) (fun c hc => (hPdet c hc).1)
  rw [hgrav] at hsolved
  refine ⟨integrateBody sq C { b with vel := ⟨b.vel.x, vyf⟩ }, ?_, ?_, ?_⟩
  · show ((runSolver params params.iterations
      (if params.warmStarting then
        applyWarmStart (integrateGravity C params s.bodies)
          (detectContacts sq C params s.contacts (integrateGravity C params s.bodies))
       else integrateGravity C params s.bodies)
      (detectContacts sq C params s.contacts (integrateGravity C params s.bodies))).1.map
        (integrateBody sq C))[0]? = _
    rw [hwid, hgrav, hsolved]
    rfl
  · have := (integrateBody_left sq C { b with vel := ⟨b.vel.x, vyf⟩ } hst him.ne'
      (by
        show b.pos.x + b.vel.x * C.timestep - b.radius < 0
        have hneg : b.vel.x * C.timestep < 0 := mul_neg_of_neg_of_pos hvel hT
        nlinarith)
      (by
        show ¬ (C.canvasWidth / C.pixelsPerMeter < b.radius + b.radius)
        intro hcon
        nlinarith)).1
    exact this
  · have := (integrateBody_left sq C { b with vel := ⟨b.vel.x, vyf⟩ } hst him.ne'
      (by
        show b.pos.x + b.vel.x * C.timestep - b.radius < 0
        have hneg : b.vel.x * C.timestep < 0 := mul_neg_of_neg_of_pos hvel hT
        nlinarith)
      (by
        show ¬ (C.canvasWidth / C.pixelsPerMeter < b.radius + b.radius)
        intro hcon
        nlinarith)).2
    rw [this]
    ring

/-- C7 counterexample: in a two-body state, the body-body impulse changes the
entering body's `vel.x` before integration, so the final `vel.x` is
`−0.5 ·` the *solver-modified* velocity (here `391/200`), not `−0.5 ·` the
incoming `vel.x` (which would be `1/20`); the claim as stated over every
input state is false. -/
theorem c7_counterexample :
    (wTwoState.bodies.getD 0 defaultBody).isStatic = false ∧
    (wTwoState.bodies.getD 0 defaultBody).pos.x -
      (wTwoState.bodies.getD 0 defaultBody).radius < 0 ∧
    (wTwoState.bodies.getD 0 defaultBody).vel.x < 0 ∧
    ¬ (((stepPhysics Rat.sqrt wConsts wTwoState wParams1).bodies.getD 0 defaultBody).pos.x =
         (wTwoState.bodies.getD 0 defaultBody).radius ∧
       ((stepPhysics Rat.sqrt wConsts wTwoState wParams1).bodies.getD 0 defaultBody).vel.x =
         -(1 / 2) * (wTwoState.bodies.getD 0 defaultBody).vel.x) :=
  ⟨by with_unfolding_all decide, by with_unfolding_all decide,
   by with_unfolding_all decide,
   fun h => absurd h.2 (by with_unfolding_all decide)⟩

theorem c7_left_wall_clamp_witness :
    wSingleState.bodies = [mkTestBody 0 (3/10) 5 (-1) 0 (4/10) 1 false] ∧
    (mkTestBody 0 (3/10) 5 (-1) 0 (4/10) 1 false).vel.x < 0 ∧
    ∃ b1, (stepPhysics Rat.sqrt wConsts wSingleState wParams2Warm).bodies[0]? = some b1 ∧
      b1.pos.x = (mkTestBody 0 (3/10) 5 (-1) 0 (4/10) 1 false).radius ∧
      b1.vel.x = -(1 / 2) * (mkTestBody 0 (3/10) 5 (-1) 0 (4/10) 1 false).vel.x :=
  ⟨by with_unfolding_all decide, by with_unfolding_all decide,
   c7_left_wall_clamp Rat.sqrt wConsts wSingleState wParams2Warm
     (mkTestBody 0 (3/10) 5 (-1) 0 (4/10) 1 false)
     (by with_unfolding_all decide) (by with_unfolding_all decide)
     (by with_unfolding_all decide) (by with_unfolding_all decide)
     (by with_unfolding_all decide) (by with_unfolding_all decide)
     (by with_unfolding_all decide) (by with_unfolding_all decide)⟩
